import Mathlib

/-!
Verification development for the resume-screening system's matching,
scoring, ranking and extraction engine.

The Python services under `backend/app/services/` are shallowly embedded
here.  Conventions used throughout:

* Python `float` values are modelled as exact rationals (`ℚ`); the source
  performs only arithmetic, comparisons and `round`, all of which are
  modelled exactly.
* Python strings are modelled as `String` in the data structures and
  processed as `List Char`; text handling in the source is ASCII-centric
  (keyword lists, regex classes), so ASCII case conversion is faithful on
  the inputs that occur.
* Python dictionaries that are accessed exclusively through `.get` with a
  fixed default are modelled as structures whose fields carry that default
  (an absent key and a key holding the default are indistinguishable to
  the code).  Keys whose absence is observable are modelled as `Option`.
* `re` patterns are embedded via a small backtracking regex engine
  (`RE`/`reMatch`) whose candidate-match ordering mirrors CPython's `re`
  backtracking preference (leftmost start, alternation left-first, greedy
  longest-first, lazy shortest-first).  Each pattern from the source is
  transcribed into an `RE` value next to a comment quoting the original.
-/

/-! ### Python-style string helpers -/

/-- Characters Python's `str.strip()` and `\s` treat as whitespace (ASCII part). -/
def pySpace (c : Char) : Bool :=
  c = ' ' || c = '\t' || c = '\n' || c = '\r' || c = '\x0b' || c = '\x0c'

/-- Python `str.lower()` on a character list (ASCII). -/
def pyLowerL (cs : List Char) : List Char := cs.map Char.toLower

/-- Python `str.lower()` producing a `String`. -/
def pyLower (s : String) : String := ⟨pyLowerL s.data⟩

/-- Python `str.strip()` on a character list. -/
def pyStripL (cs : List Char) : List Char :=
  ((cs.dropWhile pySpace).reverse.dropWhile pySpace).reverse

/-- Python `str.strip()` producing a `String`. -/
def pyStrip (s : String) : String := ⟨pyStripL s.data⟩

/-- Python `str.split()` with no argument: split on whitespace runs, dropping
empty pieces. -/
def pySplitWs (cs : List Char) : List (List Char) :=
  (cs.splitOnP pySpace).filter (· ≠ [])

/-- Boolean substring containment (`a in b` for Python strings), on lists. -/
def isSubL (a b : List Char) : Bool := b.tails.any (fun t => a.isPrefixOf t)

/-- Boolean substring containment on `String`s. -/
def isSubS (a b : String) : Bool := isSubL a.data b.data

/-- Python `int(x)` on a rational: truncation toward zero. -/
def pyTrunc (q : ℚ) : ℤ := if 0 ≤ q then ⌊q⌋ else ⌈q⌉

/-- Round-half-to-even on a rational, yielding an integer (Python's
`round(x)` banker's rounding, modelled on exact rationals). -/
def roundHalfEven (q : ℚ) : ℤ :=
  let f := ⌊q⌋
  let r := q - f
  if r < 1/2 then f
  else if 1/2 < r then f + 1
  else if f % 2 = 0 then f else f + 1

/-- Python `round(x, n)` for `n` decimal digits, on exact rationals. -/
def pyRound (ndigits : ℕ) (q : ℚ) : ℚ :=
  (roundHalfEven (q * 10 ^ ndigits) : ℚ) / 10 ^ ndigits

/-! ### A small backtracking regex engine

CPython's `re` uses a backtracking engine; `reMatch` enumerates candidate
matches in exactly the engine's preference order, so taking the head of
the list is `re.search`'s behaviour at a given start position. -/

/-- A character class: explicit characters plus ranges, an optional
negation, and an optional `re.IGNORECASE` flag (CPython applies the flag
inside classes as well). -/
structure CharCls where
  singles : List Char := []
  ranges : List (Char × Char) := []
  negq : Bool := false
  ci : Bool := false
deriving Repr, DecidableEq

/-- Raw membership of a character in a class, before flags. -/
def CharCls.base (cc : CharCls) (c : Char) : Bool :=
  cc.singles.contains c || cc.ranges.any (fun r => r.1 ≤ c && c ≤ r.2)

/-- Membership of a character in a class under the class's flags. -/
def CharCls.mem (cc : CharCls) (c : Char) : Bool :=
  let b :=
    if cc.ci then cc.base c || cc.base c.toLower || cc.base c.toUpper
    else cc.base c
  if cc.negq then !b else b

/-- Regular-expression syntax, sufficient for every pattern appearing in
the embedded services. -/
inductive RE where
  | eps
  | cls (cc : CharCls)
  | seq (a b : RE)
  | alt (a b : RE)
  | star (a : RE) (lazyq : Bool)
  | group (idx : Nat) (a : RE)
  | bnd
  | bol
  | eol
deriving Repr

/-- Matcher state: remaining input, the character just before it (for
word boundaries) and the absolute position. -/
structure MSt where
  rest : List Char
  prev : Option Char
  pos : Nat
deriving Repr, DecidableEq

/-- Captured group spans: `(index, start, end)`, most recent first. -/
def Caps := List (Nat × Nat × Nat)
deriving instance DecidableEq, Repr for Caps

/-- Membership in `\w` (ASCII, as used by the source's patterns). -/
def isWordChar (c : Char) : Bool :=
  ('a' ≤ c && c ≤ 'z') || ('A' ≤ c && c ≤ 'Z') || ('0' ≤ c && c ≤ '9') || c = '_'

/-- Is the matcher state at a `\b` word boundary? -/
def atBoundary (st : MSt) : Bool :=
  let pw := match st.prev with | none => false | some c => isWordChar c
  let nw := match st.rest with | [] => false | c :: _ => isWordChar c
  pw != nw

/-- Enumerate candidate matches of `re` at the state, in CPython's
backtracking preference order.  The fuel bounds recursion depth; callers
supply enough for it never to run out (each level of regex structure or
star iteration consumes one unit). -/
def reMatch : Nat → RE → MSt → Caps → List (MSt × Caps)
  | 0, _, _, _ => []
  | fuel+1, re, st, caps =>
    match re with
    | .eps => [(st, caps)]
    | .cls cc =>
        match st.rest with
        | [] => []
        | c :: rs => if cc.mem c then [(⟨rs, some c, st.pos + 1⟩, caps)] else []
    | .seq a b => (reMatch fuel a st caps).flatMap (fun p => reMatch fuel b p.1 p.2)
    | .alt a b => reMatch fuel a st caps ++ reMatch fuel b st caps
    | .star a lzy =>
        let deeper := (reMatch fuel a st caps).flatMap (fun p =>
          if p.1.pos = st.pos then [] else reMatch fuel (.star a lzy) p.1 p.2)
        if lzy then (st, caps) :: deeper else deeper ++ [(st, caps)]
    | .group i a =>
        (reMatch fuel a st caps).map (fun p => (p.1, (i, st.pos, p.1.pos) :: p.2))
    | .bnd => if atBoundary st then [(st, caps)] else []
    | .bol => if st.pos = 0 then [(st, caps)] else []
    | .eol => if st.rest.isEmpty || st.rest = ['\n'] then [(st, caps)] else []

/-- Structural size of a regex, used for fuel computation. -/
def reSize : RE → Nat
  | .eps | .cls _ | .bnd | .bol | .eol => 1
  | .seq a b | .alt a b => reSize a + reSize b + 1
  | .star a _ => reSize a + 1
  | .group _ a => reSize a + 1

/-- Fuel sufficient for `reMatch` on input of length `n`. -/
def reFuel (re : RE) (n : Nat) : Nat := (n + 2) * (reSize re + 2)

/-- The initial matcher state for a character list. -/
def mst0 (cs : List Char) : MSt := ⟨cs, none, 0⟩

/-- One step of `re.search`: try to match at the current position, else
advance one character.  Returns `(start, end, captures)`. -/
def reSearchFrom : Nat → RE → MSt → Option (Nat × Nat × Caps)
  | 0, _, _ => none
  | f+1, re, st =>
    match reMatch (reFuel re st.rest.length) re st [] with
    | (st', caps) :: _ => some (st.pos, st'.pos, caps)
    | [] =>
      match st.rest with
      | [] => none
      | c :: rs => reSearchFrom f re ⟨rs, some c, st.pos + 1⟩

/-- `re.search(pattern, text)`: leftmost match. -/
def reSearch (re : RE) (cs : List Char) : Option (Nat × Nat × Caps) :=
  reSearchFrom (cs.length + 1) re (mst0 cs)

/-- `re.finditer`: successive non-overlapping matches, resuming at each
match's end (advancing one character past zero-width matches). -/
def reFindFrom : Nat → RE → MSt → List (Nat × Nat × Caps)
  | 0, _, _ => []
  | f+1, re, st =>
    match reMatch (reFuel re st.rest.length) re st [] with
    | (st', caps) :: _ =>
        if st'.pos = st.pos then
          (st.pos, st.pos, caps) ::
            (match st.rest with
             | [] => []
             | c :: rs => reFindFrom f re ⟨rs, some c, st.pos + 1⟩)
        else (st.pos, st'.pos, caps) :: reFindFrom f re st'
    | [] =>
      match st.rest with
      | [] => []
      | c :: rs => reFindFrom f re ⟨rs, some c, st.pos + 1⟩

/-- All matches of a pattern in a text, like `re.finditer`. -/
def reFindAll (re : RE) (cs : List Char) : List (Nat × Nat × Caps) :=
  reFindFrom (2 * cs.length + 2) re (mst0 cs)

/-- Look up a captured group's span. -/
def capGet (caps : Caps) (i : Nat) : Option (Nat × Nat) :=
  match caps.find? (fun p => p.1 = i) with
  | some p => some p.2
  | none => none

/-- Slice a character list by positions `[a, b)`. -/
def sliceL (cs : List Char) (a b : Nat) : List Char := (cs.drop a).take (b - a)

/-- Rebuild a text from non-overlapping match spans, substituting `repl`
for each span (`re.sub`'s reassembly step). -/
def subBuild : List Char → Nat → List (Nat × Nat × Caps) → List Char → List Char
  | cs, p, [], _ => cs.drop p
  | cs, p, (s, e, _) :: ms, repl =>
      sliceL cs p s ++ repl ++ subBuild cs e ms repl

/-- `re.sub(pattern, repl, text)` for a constant replacement. -/
def reSub (re : RE) (repl : List Char) (cs : List Char) : List Char :=
  subBuild cs 0 (reFindAll re cs) repl

/-! ### Pattern-building helpers mirroring `re` source notation -/

/-- Literal character. -/
def rCh (c : Char) : RE := .cls {singles := [c]}

/-- Literal character under `re.IGNORECASE`. -/
def rChCI (c : Char) : RE := .cls {singles := [c], ci := true}

/-- Literal string (sequence of literal characters). -/
def rStr (s : String) : RE := (s.data.map rCh).foldr RE.seq .eps

/-- Literal string under `re.IGNORECASE`. -/
def rStrCI (s : String) : RE := (s.data.map rChCI).foldr RE.seq .eps

/-- Left-preferring alternation of a list of alternatives. -/
def rAlts : List RE → RE
  | [] => .eps
  | [a] => a
  | a :: rest => .alt a (rAlts rest)

/-- Greedy `e?`. -/
def rOpt (a : RE) : RE := .alt a .eps

/-- Greedy `e+`. -/
def rPlus (a : RE) : RE := .seq a (.star a false)

/-- Greedy `e*`. -/
def rStar (a : RE) : RE := .star a false

/-- Exactly `n` repetitions. -/
def rRep : Nat → RE → RE
  | 0, _ => .eps
  | n+1, a => .seq a (rRep n a)

/-- Greedy `e{0,n}` (prefers more repetitions, like the backtracking engine). -/
def rUpTo : Nat → RE → RE
  | 0, _ => .eps
  | n+1, a => .alt (.seq a (rUpTo n a)) .eps

/-- Greedy `e{lo,hi}`. -/
def rRange (lo hi : Nat) (a : RE) : RE := .seq (rRep lo a) (rUpTo (hi - lo) a)

/-- Greedy `e{n,}`. -/
def rAtLeast (n : Nat) (a : RE) : RE := .seq (rRep n a) (rStar a)

/-- Class `\d`. -/
def clsD : CharCls := {ranges := [('0', '9')]}

/-- Class `\w` (ASCII). -/
def clsW : CharCls := {singles := ['_'], ranges := [('a', 'z'), ('A', 'Z'), ('0', '9')]}

/-- Class `\s` (ASCII). -/
def clsS : CharCls := {singles := [' ', '\t', '\n', '\r', '\x0b', '\x0c']}

/-- Class `.` without `re.DOTALL`. -/
def clsDot : CharCls := {singles := ['\n'], negq := true}

/-- Class `.` with `re.DOTALL`. -/
def clsDotAll : CharCls := {negq := true}

/-- Lazy `(.*?)` capture group with `re.DOTALL`, as group `i`. -/
def rLazyAllGroup (i : Nat) : RE := .group i (.star (.cls clsDotAll) true)

example : reSearch (rStr "bc") "abcd".data = some (1, 3, []) := by decide
example : reSearch (.seq .bnd (rStr "on")) "python on".data = some (7, 9, []) := by decide
example : reFindAll (rStr "aa") "aaaa".data = [(0, 2, []), (2, 4, [])] := by decide
example : reSub (rPlus (.cls clsD)) "#".data "a12b345".data = "a#b#".data := by decide

/-! ### Data model

Shapes of the dict-shaped records flowing between the services
(`parsed_data_json` resume data, job requirements, weights).  Fields read
via `.get(key, default)` in the source carry that default here. -/

/-- One parsed work-experience entry as stored in `parsed_data_json`
(`experience.experiences[i]`); dates are ISO strings, as produced by
`experience_parser` via `isoformat()`. -/
structure PExp where
  title : String := ""
  company : String := ""
  is_current : Bool := false
  end_date : Option String := none
  achievements : List String := []
  description : String := ""
deriving Repr, DecidableEq

/-- The `skills` sub-dictionary of parsed resume data. -/
structure SkillsData where
  skills : List String := []
  categorized_skills : List (String × List String) := []
deriving Repr, DecidableEq

/-- The `experience` sub-dictionary of parsed resume data. -/
structure ExperienceData where
  total_experience_years : ℚ := 0
  experiences : List PExp := []
deriving Repr, DecidableEq

/-- One education entry (`education.educations[i]`). -/
structure EduEntry where
  institution : String := ""
deriving Repr, DecidableEq

/-- The `education` sub-dictionary of parsed resume data. -/
structure EducationData where
  educations : List EduEntry := []
  highest_degree : String := ""
deriving Repr, DecidableEq

/-- Contact information (`contact_info`). -/
structure ContactInfo where
  email : Option String := none
  phone : Option String := none
  linkedin : Option String := none
  github : Option String := none
  website : Option String := none
deriving Repr, DecidableEq

/-- Parsed resume data (`parsed_data_json`) as consumed by the scoring,
ranking and bias services. -/
structure ResumeData where
  raw_text : String := ""
  contact_info : Option ContactInfo := none
  skills : SkillsData := {}
  experience : ExperienceData := {}
  education : EducationData := {}
deriving Repr, DecidableEq

/-- The `mandatory_requirements` sub-dictionary of job requirements.
`none` at the use site models a missing or empty dictionary (both falsy
in `if not mandatory`); `some` models a non-empty one. -/
structure Mandatory where
  skills : List String := []
  min_experience_years : ℚ := 0
  required_degree : Option String := none
deriving Repr, DecidableEq

/-- Job requirements dictionary.  `preferred_experience_years` is an
`Option` because the scoring engine's `.get` default for it is the
required years, so its absence is observable. -/
structure JobRequirements where
  required_skills : List String := []
  preferred_skills : List String := []
  required_experience_years : ℚ := 0
  preferred_experience_years : Option ℚ := none
  required_degree : Option String := none
  preferred_institutions : List String := []
  institution_tiers : List (String × List String) := []
  mandatory_requirements : Option Mandatory := none
deriving Repr, DecidableEq

/-- Scoring weights.  The source's weight dictionaries carry exactly the
keys `skills`, `experience`, `education` (the engine's defaults and every
caller); dictionaries missing one of them would raise `KeyError` and are
out of scope. -/
structure Weights where
  skills : ℚ
  experience : ℚ
  education : ℚ
deriving Repr, DecidableEq

/-- Sum of a weight dictionary's values (`sum(weights.values())`). -/
def Weights.total (w : Weights) : ℚ := w.skills + w.experience + w.education

/-- `ScoringEngine.default_weights`. -/
def default_weights : Weights := {skills := 50/100, experience := 30/100, education := 20/100}

/-! ### `ScoringEngine` (`scoring_engine.py`) -/

/-- The degree hierarchy dictionary used by the scoring engine, in its
insertion order. -/
def degree_hierarchy : List (String × Nat) :=
  [("phd", 5), ("masters", 4), ("bachelors", 3), ("associates", 2), ("diploma", 1)]

/-- Scan the degree hierarchy for the first degree keyword contained in
`highest_degree.lower()` (the `for degree_type, level in ... : if ... break`
loop); `0` when none matches. -/
def highestLevelOf (highest_degree : String) : Nat :=
  match degree_hierarchy.find? (fun p => isSubL p.1.data (pyLowerL highest_degree.data)) with
  | some p => p.2
  | none => 0

/-- `ScoringEngine._check_mandatory_requirements`: 1.0 when every
mandatory requirement is met, 0.0 otherwise. -/
def check_mandatory_requirements (resume_data : ResumeData) (job : JobRequirements) : ℚ :=
  match job.mandatory_requirements with
  | none => 1
  | some mandatory =>
    let resume_skills := resume_data.skills.skills.map pyLower
    if mandatory.skills.any (fun req => !(resume_skills.contains (pyLower req))) then 0
    else if 0 < mandatory.min_experience_years &&
        resume_data.experience.total_experience_years < mandatory.min_experience_years then 0
    else
      match mandatory.required_degree with
      | none => 1
      | some required_degree =>
        let req_level := ((degree_hierarchy.find? (fun p => p.1 = pyLower required_degree)).map
          (·.2)).getD 0
        if highestLevelOf resume_data.education.highest_degree < req_level then 0 else 1

/-- Result of `ScoringEngine._match_skill_type`. -/
inductive MatchTy where
  | exact
  | part
  | related
  | nomatch
deriving Repr, DecidableEq

/-- `ScoringEngine._match_skill_type`: exact equality, substring
containment, or shared words, after lowering and stripping. -/
def match_skill_type (required resume : String) : MatchTy :=
  let r := pyStripL (pyLowerL required.data)
  let s := pyStripL (pyLowerL resume.data)
  if r = s then .exact
  else if isSubL r s || isSubL s r then .part
  else if (pySplitWs r).any (fun w => (pySplitWs s).contains w) then .related
  else .nomatch

/-- Classification of one required skill against the resume skills: the
match type of the first resume skill that matches at all (the inner
`for res_skill ... break` loop). -/
def classifyRequired (req : String) (resume_skills : List String) : MatchTy :=
  match resume_skills.find? (fun res => match_skill_type req res ≠ .nomatch) with
  | some res => match_skill_type req res
  | none => .nomatch

/-- `skill_match_scores` from the engine's constructor. -/
def skill_match_scores (t : MatchTy) : ℚ :=
  match t with
  | .exact => 1
  | .part => 7/10
  | .related => 3/10
  | .nomatch => 0

/-- Breakdown dictionary produced by `_calculate_skill_score`. -/
structure SkillBreakdown where
  exact_matches : List String := []
  partial_matches : List String := []
  related_matches : List String := []
  missing_required : List String := []
  missing_preferred : List String := []
  match_rate : ℚ := 0
deriving Repr, DecidableEq

/-- The lists accumulated by the required-skills loop of
`_calculate_skill_score`, in iteration order. -/
def requiredSkillLists (required resume_skills : List String) :
    List String × List String × List String × List String :=
  match required with
  | [] => ([], [], [], [])
  | req :: rest =>
    let (ex, pa, re, mi) := requiredSkillLists rest resume_skills
    match classifyRequired req resume_skills with
    | .exact => (req :: ex, pa, re, mi)
    | .part => (ex, req :: pa, re, mi)
    | .related => (ex, pa, req :: re, mi)
    | .nomatch => (ex, pa, re, req :: mi)

/-- The `missing_preferred` list of `_calculate_skill_score`: preferred
skills not repeated in the required list and matching no resume skill. -/
def missingPreferred (preferred required resume_skills : List String) : List String :=
  preferred.filter (fun pref =>
    !(required.contains pref) && classifyRequired pref resume_skills = .nomatch)

/-- `ScoringEngine._calculate_skill_score`: score in `[0,1]` plus
breakdown.  Required matches are weighted by match type; preferred
matches contribute at most `0.5`, and the two are combined `0.7/0.3`
when required skills exist. -/
def calculate_skill_score (resume_data : ResumeData) (job : JobRequirements) :
    ℚ × SkillBreakdown :=
  let resume_skills := resume_data.skills.skills.map pyLower
  let required_skills := job.required_skills.map pyLower
  let preferred_skills := job.preferred_skills.map pyLower
  if required_skills.isEmpty && preferred_skills.isEmpty then
    (1, {})
  else
    let (exact_matches, partial_matches, related_matches, missing_required) :=
      requiredSkillLists required_skills resume_skills
    let missing_preferred := missingPreferred preferred_skills required_skills resume_skills
    let total_required := required_skills.length
    let total_preferred := preferred_skills.length
    let required_score : ℚ :=
      if 0 < total_required then
        ((exact_matches.length : ℚ) * 1 + (partial_matches.length : ℚ) * (7/10) +
          (related_matches.length : ℚ) * (3/10)) / total_required
      else 0
    let preferred_score : ℚ :=
      if 0 < total_preferred then
        ((total_preferred - missing_preferred.length : ℚ)) / total_preferred * (5/10)
      else 0
    let score : ℚ :=
      if 0 < total_required then required_score * (7/10) + preferred_score * (3/10)
      else preferred_score
    let breakdown : SkillBreakdown :=
      { exact_matches := exact_matches
        partial_matches := partial_matches
        related_matches := related_matches
        missing_required := missing_required
        missing_preferred := missing_preferred
        match_rate := ((exact_matches.length + partial_matches.length +
          related_matches.length : ℚ)) / (max (total_required + total_preferred) 1 : ℚ) }
    (min score 1, breakdown)

/-- Breakdown dictionary produced by `_calculate_experience_score`.  The
short form (`required == 0` branch) leaves the optional keys absent. -/
structure ExpBreakdown where
  years : ℚ := 0
  required : ℚ := 0
  preferred : Option ℚ := none
  meets_requirement : Option Bool := none
  exceeds_preferred : Option Bool := none
deriving Repr, DecidableEq

/-- `ScoringEngine._calculate_experience_score`: diminishing returns
above the preferred years, linear interpolation between required and
preferred, proportional score below required; `1.0` whenever the
required years are zero. -/
def calculate_experience_score (resume_data : ResumeData) (job : JobRequirements) :
    ℚ × ExpBreakdown :=
  let required_years := job.required_experience_years
  let preferred_years := job.preferred_experience_years.getD required_years
  let resume_exp := resume_data.experience.total_experience_years
  if required_years = 0 then
    (1, {years := resume_exp, required := 0})
  else
    let score : ℚ :=
      if preferred_years ≤ resume_exp then
        max (1 - (resume_exp - preferred_years) * (5/100)) (7/10)
      else if required_years ≤ resume_exp then
        7/10 + ((resume_exp - required_years) / (preferred_years - required_years)) * (3/10)
      else
        max 0 (resume_exp / required_years * (7/10))
    let breakdown : ExpBreakdown :=
      { years := resume_exp
        required := required_years
        preferred := some preferred_years
        meets_requirement := some (required_years ≤ resume_exp)
        exceeds_preferred := some (preferred_years ≤ resume_exp) }
    (min score 1, breakdown)

/-- Breakdown dictionary produced by `_calculate_education_score`; the
no-education branch returns only `has_education = False`. -/
structure EduBreakdown where
  has_education : Bool := true
  highest_degree : String := ""
  institutions : List String := []
  degree_score : ℚ := 0
  institution_score : ℚ := 0
deriving Repr, DecidableEq

/-- `ScoringEngine._tier_rank`. -/
def tier_rank (tier : String) : Nat :=
  match [("tier1", 3), ("tier2", 2), ("tier3", 1), ("preferred", 4)].find?
      (fun p => p.1 = pyLower tier) with
  | some p => p.2
  | none => 0

/-- The nested tier scan of `_calculate_education_score` for one
education entry: update the running best `(institution, tier)` from the
`institution_tiers` dictionary. -/
def scanTiers (institution : String) (tiers : List (String × List String))
    (best : Option (String × String)) : Option (String × String) :=
  tiers.foldl
    (fun best p =>
      if p.2.any (fun inst => isSubS (pyLower inst) institution) then
        match best with
        | none => some (institution, p.1)
        | some b => if tier_rank b.2 < tier_rank p.1 then some (institution, p.1) else best
      else best)
    best

/-- The education loop of `_calculate_education_score`: first education
whose institution contains a preferred institution wins outright
(`break`), otherwise the best tier found across all entries. -/
def bestInstitution (educations : List EduEntry) (job : JobRequirements) :
    Option (String × String) :=
  let rec go : List EduEntry → Option (String × String) → Option (String × String)
    | [], best => best
    | e :: rest, best =>
      let institution := pyLower e.institution
      if job.preferred_institutions.any (fun pref => isSubS (pyLower pref) institution) then
        some (institution, "preferred")
      else go rest (scanTiers institution job.institution_tiers best)
  go educations none

/-- Institution tier scores dictionary, defaulting to `0.5`. -/
def tier_scores (tier : String) : ℚ :=
  match [("tier1", (1 : ℚ)), ("tier2", 8/10), ("tier3", 6/10), ("preferred", 1)].find?
      (fun p => p.1 = tier) with
  | some p => p.2
  | none => 5/10

/-- `ScoringEngine._calculate_education_score`: `0.0` with an empty
breakdown when no education entries exist; otherwise a 70/30 blend of a
degree-threshold score and an institution-tier score. -/
def calculate_education_score (resume_data : ResumeData) (job : JobRequirements) :
    ℚ × EduBreakdown :=
  let educations := resume_data.education.educations
  if educations.isEmpty then
    (0, {has_education := false})
  else
    let degree_score : ℚ :=
      match job.required_degree with
      | none => 1
      | some required_degree =>
        let req_level := ((degree_hierarchy.find? (fun p => p.1 = pyLower required_degree)).map
          (·.2)).getD 0
        if highestLevelOf resume_data.education.highest_degree < req_level then 0 else 1
    let institution_score : ℚ :=
      if !job.preferred_institutions.isEmpty || !job.institution_tiers.isEmpty then
        match bestInstitution educations job with
        | some b => tier_scores b.2
        | none => 5/10
      else 1
    let final_score := degree_score * (7/10) + institution_score * (3/10)
    let breakdown : EduBreakdown :=
      { has_education := true
        highest_degree := resume_data.education.highest_degree
        institutions := educations.map (·.institution)
        degree_score := degree_score
        institution_score := institution_score }
    (final_score, breakdown)

/-- One sentence of `_generate_explanation`'s deterministic template
assembly, with its numeric arguments kept as data (the source only
interpolates them into f-strings). -/
inductive ExplItem where
  | excellentMatch
  | goodMatch
  | moderateMatch
  | limitedMatch
  | strongSkillMatch (n : Nat)
  | missingRequiredSkills (n : Nat)
  | meetsExperience (years : ℚ)
  | belowExperience (years required : ℚ)
  | educationLine (degree : String)
deriving Repr, DecidableEq

/-- `ScoringEngine._generate_explanation` as a list of template items. -/
def generate_explanation (overall_score : ℚ)
    (skill_breakdown : SkillBreakdown) (exp_breakdown : ExpBreakdown)
    (edu_breakdown : EduBreakdown) : List ExplItem :=
  let head : ExplItem :=
    if 8/10 ≤ overall_score then .excellentMatch
    else if 6/10 ≤ overall_score then .goodMatch
    else if 4/10 ≤ overall_score then .moderateMatch
    else .limitedMatch
  let skillItems :=
    (if !skill_breakdown.exact_matches.isEmpty then
      [ExplItem.strongSkillMatch skill_breakdown.exact_matches.length] else []) ++
    (if !skill_breakdown.missing_required.isEmpty then
      [ExplItem.missingRequiredSkills skill_breakdown.missing_required.length] else [])
  let expItem : ExplItem :=
    if exp_breakdown.meets_requirement.getD false then
      .meetsExperience exp_breakdown.years
    else .belowExperience exp_breakdown.years exp_breakdown.required
  let eduItems :=
    if edu_breakdown.highest_degree ≠ "" then
      [ExplItem.educationLine edu_breakdown.highest_degree] else []
  head :: skillItems ++ [expItem] ++ eduItems

/-- Result of `ScoringEngine.calculate_match_score`: the success
dictionary, the fixed mandatory-failure dictionary, or the
exception-handler dictionary (`{'overall_score': 0.0, 'error': ...}`,
reached when normalization divides by a zero weight sum). -/
inductive MatchScoreResult where
  | ok (overall_score : ℚ) (skills experience education : ℚ)
      (skill_breakdown : SkillBreakdown) (exp_breakdown : ExpBreakdown)
      (edu_breakdown : EduBreakdown) (weights_used : Weights)
      (explItems : List ExplItem)
  | mandatoryFailed
  | scoringError
deriving Repr, DecidableEq

/-- The `overall_score` entry of the returned dictionary. -/
def MatchScoreResult.overall : MatchScoreResult → ℚ
  | .ok o _ _ _ _ _ _ _ _ => o
  | .mandatoryFailed => 0
  | .scoringError => 0

/-- The `mandatory_met` entry read back via `.get('mandatory_met', False)`
(absent on the error dictionary). -/
def MatchScoreResult.mandatoryMet : MatchScoreResult → Bool
  | .ok _ _ _ _ _ _ _ _ _ => true
  | .mandatoryFailed => false
  | .scoringError => false

/-- The `weights_used` entry, present only on success. -/
def MatchScoreResult.weightsUsed : MatchScoreResult → Option Weights
  | .ok _ _ _ _ _ _ _ w _ => some w
  | .mandatoryFailed => none
  | .scoringError => none

/-- `ScoringEngine.calculate_match_score`: validates/renormalizes the
weights (only when their sum is off by more than `0.01`; a zero sum
raises `ZeroDivisionError`, caught by the handler), applies the
mandatory gate, computes the three component scores and combines them
as a weighted sum rounded to two decimals — with no `×100` scaling and
no clamping. -/
def calculate_match_score (resume_data : ResumeData) (job : JobRequirements)
    (weights : Option Weights) : MatchScoreResult :=
  let w := weights.getD default_weights
  let total_weight := w.total
  if 1/100 < |total_weight - 1| then
    if total_weight = 0 then .scoringError
    else
      calcRest resume_data job
        {skills := w.skills / total_weight, experience := w.experience / total_weight,
         education := w.education / total_weight}
  else calcRest resume_data job w
where
  /-- The body after weight validation. -/
  calcRest (resume_data : ResumeData) (job : JobRequirements) (w : Weights) :
      MatchScoreResult :=
    if check_mandatory_requirements resume_data job = 0 then .mandatoryFailed
    else
      let (skill_score, skill_breakdown) := calculate_skill_score resume_data job
      let (experience_score, exp_breakdown) := calculate_experience_score resume_data job
      let (education_score, edu_breakdown) := calculate_education_score resume_data job
      let overall_score :=
        skill_score * w.skills + experience_score * w.experience +
          education_score * w.education
      .ok (pyRound 2 overall_score)
        (pyRound 2 skill_score) (pyRound 2 experience_score) (pyRound 2 education_score)
        skill_breakdown exp_breakdown edu_breakdown w
        (generate_explanation overall_score skill_breakdown exp_breakdown edu_breakdown)

/-! ### `RankingEngine` (`ranking_engine.py`) -/

/-- Per-component scores dictionary of a match-result entry. -/
structure CompScores where
  skills : ℚ := 0
  experience : ℚ := 0
  education : ℚ := 0
deriving Repr, DecidableEq

/-- Position sentence of `_generate_ranking_explanation`. -/
inductive PosItem where
  | top
  | topN (n : Nat)
  | topTen
  | topQuarter
  | rankedOf (r n : Nat)
deriving Repr, DecidableEq

/-- Score sentence of `_generate_ranking_explanation`. -/
inductive ScoreItem where
  | excellent
  | good
  | moderate
deriving Repr, DecidableEq

/-- Structured content of a ranking explanation string. -/
structure RankExpl where
  posItem : PosItem
  scoreItem : ScoreItem
  strongSkills : Bool
  strongExp : Bool
deriving Repr, DecidableEq

/-- A candidate match-result dictionary as it flows from the matching
strategies into the ranking engine, which mutates it in place (diversity
score, adjusted overall score, rank, explanation). -/
structure RankCandidate where
  candidate_id : String := ""
  anonymized_id : String := ""
  resume_id : String := ""
  resume_data : ResumeData := {}
  overall_score : ℚ := 0
  component_scores : CompScores := {}
  skill_breakdown : SkillBreakdown := {}
  exp_breakdown : ExpBreakdown := {}
  edu_breakdown : EduBreakdown := {}
  explItems : List ExplItem := []
  anonymized_data : Option ResumeData := none
  diversity_score : Option ℚ := none
  rank : Option Nat := none
  ranking_expl : Option RankExpl := none
deriving Repr, DecidableEq

/-- `RankingEngine._get_education_level`: keyword scan over the lowered
degree string. -/
def get_education_level (degree : String) : Nat :=
  let d := pyLowerL degree.data
  if isSubL "phd".data d || isSubL "doctorate".data d then 5
  else if isSubL "master".data d || isSubL "mba".data d then 4
  else if isSubL "bachelor".data d || isSubL "bs".data d || isSubL "ba".data d then 3
  else if isSubL "associate".data d then 2
  else if isSubL "diploma".data d || isSubL "certificate".data d then 1
  else 0

/-- Number of days from 1970-01-01 to a civil date (standard
`days_from_civil` algorithm); models ordering/difference of `datetime`
values at day granularity. -/
def daysFromCivil (y : Int) (m d : Nat) : Int :=
  let y' : Int := if m ≤ 2 then y - 1 else y
  let era : Int := (if 0 ≤ y' then y' else y' - 399) / 400
  let yoe : Int := y' - era * 400
  let mp : Nat := if 2 < m then m - 3 else m + 9
  let doy : Int := (153 * (mp : Int) + 2) / 5 + (d : Int) - 1
  let doe : Int := yoe * 365 + yoe / 4 - yoe / 100 + doy
  era * 146097 + doe - 719468

/-- Decimal value of an ASCII digit. -/
def digitVal (c : Char) : Option Nat :=
  if '0' ≤ c && c ≤ '9' then some (c.toNat - '0'.toNat) else none

/-- Day count of each month (February handled with the leap rule). -/
def daysInMonth (y : Int) (m : Nat) : Nat :=
  if m = 2 then (if y % 4 = 0 && (y % 100 ≠ 0 || y % 400 = 0) then 29 else 28)
  else if m = 4 || m = 6 || m = 9 || m = 11 then 30 else 31

/-- Parse the `YYYY-MM-DD` prefix of an ISO datetime string into a day
number, validating month and day ranges as `datetime.fromisoformat`
does; time-of-day is abstracted to day granularity (the source only ever
orders these values and takes day differences). -/
def parseIsoDate (s : String) : Option Int :=
  match s.data with
  | y1 :: y2 :: y3 :: y4 :: '-' :: m1 :: m2 :: '-' :: d1 :: d2 :: _ =>
    match digitVal y1, digitVal y2, digitVal y3, digitVal y4,
        digitVal m1, digitVal m2, digitVal d1, digitVal d2 with
    | some a, some b, some c, some d, some e, some f, some g, some h =>
      let y : Int := (a * 1000 + b * 100 + c * 10 + d : Nat)
      let mo := e * 10 + f
      let da := g * 10 + h
      if 1 ≤ mo && mo ≤ 12 && 1 ≤ da && da ≤ daysInMonth y mo then
        some (daysFromCivil y mo da)
      else none
    | _, _, _, _, _, _, _, _ => none
  | _ => none

/-- Python `str.replace('Z', '+00:00')`. -/
def replaceZ (s : String) : String :=
  ⟨s.data.flatMap (fun c => if c = 'Z' then "+00:00".data else [c])⟩

/-- `RankingEngine._calculate_recency_score` with `datetime.now()`
supplied as the day number `now`: 1.0 for a current position, linear
decay over five years from the most recent parseable end date, 0.5 when
positions exist but no end date parses, 0.0 with no positions at all. -/
def calculate_recency_score (now : Int) (candidate : RankCandidate) : ℚ :=
  let experiences := candidate.resume_data.experience.experiences
  if experiences.isEmpty then 0
  else if experiences.any (·.is_current) then 1
  else
    let most_recent := experiences.foldl
      (fun best exp =>
        match exp.end_date with
        | none => best
        | some s =>
          match parseIsoDate (replaceZ s) with
          | none => best
          | some d =>
            match best with
            | none => some d
            | some b => if b < d then some d else best)
      none
    match most_recent with
    | some m =>
      let years_ago : ℚ := ((now - m : ℤ) : ℚ) / (36525/100)
      max 0 (1 - years_ago / 5)
    | none => 5/10

/-- The multi-level descending sort key of `_sort_candidates`:
`(-overall_score, -experience_years, -education_level, -recency)`. -/
def sortKey (now : Int) (c : RankCandidate) : ℚ × ℚ × Int × ℚ :=
  (-c.overall_score,
   -c.resume_data.experience.total_experience_years,
   -(get_education_level c.resume_data.education.highest_degree : Int),
   -calculate_recency_score now c)

/-- Lexicographic comparison of two sort keys (Python tuple ordering). -/
def lex4Le (p q : ℚ × ℚ × Int × ℚ) : Bool :=
  if p.1 < q.1 then true else if q.1 < p.1 then false
  else if p.2.1 < q.2.1 then true else if q.2.1 < p.2.1 then false
  else if p.2.2.1 < q.2.2.1 then true else if q.2.2.1 < p.2.2.1 then false
  else p.2.2.2 ≤ q.2.2.2

/-- Sort-key comparison between candidates. -/
def rankLE (now : Int) (a b : RankCandidate) : Bool :=
  lex4Le (sortKey now a) (sortKey now b)

/-- `RankingEngine._sort_candidates`: a stable ascending sort by the
tuple key (CPython's `sorted`), i.e. descending in each component. -/
def sort_candidates (now : Int) (candidates : List RankCandidate) : List RankCandidate :=
  candidates.mergeSort (rankLE now)

/-- `RankingEngine._get_institution_tier` (diversity attributes). -/
def get_institution_tier (c : RankCandidate) : String :=
  match c.resume_data.education.educations with
  | [] => "tier3"
  | e :: _ =>
    let institution := pyLowerL e.institution.data
    if ["mit", "stanford", "harvard", "caltech", "princeton"].any
        (fun kw => isSubL kw.data institution) then "tier1"
    else if ["university", "college"].any (fun kw => isSubL kw.data institution) then "tier2"
    else "tier3"

/-- `RankingEngine._get_experience_level`. -/
def get_experience_level (c : RankCandidate) : String :=
  let exp_years := c.resume_data.experience.total_experience_years
  if 7 ≤ exp_years then "senior" else if 3 ≤ exp_years then "mid" else "junior"

/-- `RankingEngine._get_skill_diversity`: distinct skill-category count
normalized by 6. -/
def get_skill_diversity (c : RankCandidate) : ℚ :=
  (c.resume_data.skills.categorized_skills.length : ℚ) / 6

/-- `RankingEngine._calculate_diversity_scores`: three capped bonuses for
under-represented institution tier, experience bracket and skill-category
mix, capped at 1.0; returned positionally. -/
def calculate_diversity_scores (candidates : List RankCandidate) : List ℚ :=
  let attrs := candidates.map (fun c =>
    (get_institution_tier c, get_experience_level c, get_skill_diversity c))
  let n : ℚ := (candidates.length : ℚ)
  attrs.map (fun a =>
    let tier_count := (attrs.filter (fun b => b.1 = a.1)).length
    let level_count := (attrs.filter (fun b => b.2.1 = a.2.1)).length
    let similar_count := (attrs.filter (fun b => |b.2.2 - a.2.2| < 1/10)).length
    let score : ℚ :=
      (if (tier_count : ℚ) < n / 3 then 3/10 else 0) +
      (if (level_count : ℚ) < n / 2 then 3/10 else 0) +
      (if (similar_count : ℚ) < n / 2 then 4/10 else 0)
    min score 1)

/-- The diversity pre-adjustment at the top of `rank_candidates`: when
`diversity_weight > 0`, store each candidate's diversity score and blend
it into `overall_score` before sorting. -/
def applyDiversity (candidates : List RankCandidate) (diversity_weight : ℚ) :
    List RankCandidate :=
  if 0 < diversity_weight then
    (candidates.zip (calculate_diversity_scores candidates)).map (fun p =>
      {p.1 with
        diversity_score := some p.2
        overall_score := p.1.overall_score * (1 - diversity_weight) + p.2 * diversity_weight})
  else candidates

/-- `RankingEngine._generate_ranking_explanation` as structured items. -/
def generate_ranking_explanation (c : RankCandidate) (rank total : Nat) : RankExpl :=
  let posItem : PosItem :=
    if rank = 1 then .top
    else if rank ≤ 3 then .topN rank
    else if (rank : ℚ) ≤ (total : ℚ) * (1/10) then .topTen
    else if (rank : ℚ) ≤ (total : ℚ) * (25/100) then .topQuarter
    else .rankedOf rank total
  let scoreItem : ScoreItem :=
    if 8/10 ≤ c.overall_score then .excellent
    else if 6/10 ≤ c.overall_score then .good
    else .moderate
  { posItem := posItem
    scoreItem := scoreItem
    strongSkills := 8/10 ≤ c.component_scores.skills
    strongExp := 8/10 ≤ c.component_scores.experience }

/-- The rank-assignment loop of `rank_candidates`
(`enumerate(ranked, start=1)`), which also attaches explanations. -/
def assignRanks (total : Nat) : Nat → List RankCandidate → List RankCandidate
  | _, [] => []
  | n, c :: rest =>
    {c with rank := some n, ranking_expl := some (generate_ranking_explanation c n total)} ::
      assignRanks total (n + 1) rest

/-- Overall score of the candidate at a list index
(`ranked_candidates[m].get('overall_score', 0.0)`). -/
def scoreAt (ranked : List RankCandidate) (m : Nat) : ℚ :=
  ((ranked.get? m).map (·.overall_score)).getD 0

/-- The first existing cluster whose member mean score is within
`1 - similarity_threshold` of `score` (iteration in insertion order). -/
def findCluster (ranked : List RankCandidate) (clusters : List (String × List Nat))
    (score : ℚ) : Option String :=
  match clusters.find? (fun cl =>
    !cl.2.isEmpty &&
      |score - (cl.2.map (scoreAt ranked)).sum / (cl.2.length : ℚ)| < 1 - 85/100) with
  | some cl => some cl.1
  | none => none

/-- Append an index to a named cluster. -/
def appendCluster (clusters : List (String × List Nat)) (name : String) (i : Nat) :
    List (String × List Nat) :=
  clusters.map (fun cl => if cl.1 = name then (cl.1, cl.2 ++ [i]) else cl)

/-- `RankingEngine._cluster_similar_candidates`: single-pass, score-order
agglomeration over the ranked list. -/
def cluster_similar_candidates (ranked : List RankCandidate) : List (String × List Nat) :=
  let rec go : Nat → Nat → List (String × List Nat) → List RankCandidate →
      List (String × List Nat)
    | _, _, clusters, [] => clusters
    | i, counter, clusters, c :: rest =>
      match findCluster ranked clusters c.overall_score with
      | some name => go (i + 1) counter (appendCluster clusters name i) rest
      | none =>
        go (i + 1) (counter + 1) (clusters ++ [("cluster_" ++ toString counter, [i])]) rest
  go 0 0 [] ranked

/-- The dictionary returned by `RankingEngine.rank_candidates`. -/
structure RankedOutput where
  ranked_candidates : List RankCandidate
  total_candidates : Nat
  clusters : List (String × List Nat)
  diversity_enabled : Bool
deriving Repr, DecidableEq

/-- `RankingEngine.rank_candidates`: optional diversity blending, sort by
the multi-level key, rank assignment with explanations, clustering. -/
def rank_candidates (candidates : List RankCandidate) (diversity_weight : ℚ)
    (now : Int) : RankedOutput :=
  let adjusted := applyDiversity candidates diversity_weight
  let ranked0 := sort_candidates now adjusted
  let ranked := assignRanks ranked0.length 1 ranked0
  { ranked_candidates := ranked
    total_candidates := ranked.length
    clusters := cluster_similar_candidates ranked
    diversity_enabled := 0 < diversity_weight }

/-! ### `SkillExtractor` (`skill_extractor.py`) -/

/-- `skill_categories` from the extractor's constructor, in insertion
order. -/
def skill_categories : List (String × List String) :=
  [("Programming Languages",
    ["python", "java", "javascript", "typescript", "c++", "c#", "go", "rust",
     "ruby", "php", "swift", "kotlin", "scala", "r", "matlab", "perl"]),
   ("Web Frameworks",
    ["react", "angular", "vue", "django", "flask", "fastapi", "spring",
     "express", "next.js", "nuxt", "laravel", "rails", "asp.net"]),
   ("Databases",
    ["postgresql", "mysql", "mongodb", "redis", "elasticsearch", "cassandra",
     "oracle", "sql server", "dynamodb", "couchdb", "neo4j"]),
   ("Cloud & DevOps",
    ["aws", "azure", "gcp", "docker", "kubernetes", "jenkins", "gitlab ci",
     "terraform", "ansible", "chef", "puppet", "vagrant", "prometheus"]),
   ("Data Science & ML",
    ["pandas", "numpy", "scikit-learn", "tensorflow", "pytorch", "keras",
     "jupyter", "matplotlib", "seaborn", "plotly", "spark", "hadoop"]),
   ("Tools & Others",
    ["git", "linux", "bash", "powershell", "jira", "confluence", "slack",
     "postman", "swagger", "graphql", "rest api", "microservices"])]

/-- `_load_skill_normalization`: the synonym/alias dictionary. -/
def skill_normalization : List (String × String) :=
  [("js", "javascript"), ("ts", "typescript"), ("cplusplus", "c++"), ("cpp", "c++"),
   ("csharp", "c#"), ("golang", "go"), ("node", "node.js"), ("nodejs", "node.js"),
   ("reactjs", "react"), ("react.js", "react"), ("vuejs", "vue"), ("vue.js", "vue"),
   ("angularjs", "angular"), ("angular.js", "angular"),
   ("postgres", "postgresql"), ("pg", "postgresql"), ("mongo", "mongodb"),
   ("ms sql", "sql server"), ("mssql", "sql server"),
   ("amazon web services", "aws"), ("google cloud", "gcp"),
   ("google cloud platform", "gcp"),
   ("k8s", "kubernetes"), ("kube", "kubernetes"),
   ("ci/cd", "continuous integration"), ("cicd", "continuous integration")]

/-- The flattened known-skill vocabulary.  The source iterates a Python
`set` union of the category lists; its hash order is
implementation-defined, so the embedding fixes the category-list
enumeration (deduplicated).  All membership-level results agree. -/
def all_known_skills : List String :=
  (skill_categories.flatMap (·.2)).dedup

/-- `SkillExtractor._normalize_skill`: lower/strip, then the
normalization dictionary, else the skill itself; `none` for the empty
string. -/
def normalize_skill (skill : String) : Option String :=
  let skill_lower := pyStrip (pyLower skill)
  match skill_normalization.find? (fun p => p.1 = skill_lower) with
  | some p => some p.2
  | none => if skill_lower = "" then none else some skill_lower

/-- The compiled `skills_pattern`:
`(?:skills?|technical\s+skills?|competencies?|expertise)[:;]?\s*\n(.*?)(?:\n\n|\n[A-Z]|$)`
with `re.IGNORECASE | re.DOTALL` (so `[A-Z]` also matches lowercase). -/
def skills_section_pat : RE :=
  .seq (rAlts
    [.seq (rStrCI "skill") (rOpt (rChCI 's')),
     .seq (rStrCI "technical") (.seq (rPlus (.cls clsS)) (.seq (rStrCI "skill") (rOpt (rChCI 's')))),
     .seq (rStrCI "competencie") (rOpt (rChCI 's')),
     rStrCI "expertise"])
  (.seq (rOpt (.cls {singles := [':', ';']}))
  (.seq (rStar (.cls clsS))
  (.seq (rCh '\n')
  (.seq (rLazyAllGroup 1)
  (rAlts [.seq (rCh '\n') (rCh '\n'),
          .seq (rCh '\n') (.cls {ranges := [('A', 'Z')], ci := true}),
          .eol])))))

/-- The splitting class of `_extract_skills_section`:
`re.split(r'[,;â€¢\-\n]', ...)` — the source file's bullet is
mojibake-encoded as the three characters `â`, `€`, `¢`. -/
def skillSplitChar (c : Char) : Bool :=
  c = ',' || c = ';' || c = '\xe2' || c = '€' || c = '\xa2' || c = '-' || c = '\n'

/-- `SkillExtractor._extract_skills_section`: grab the skills-section
body and split it on the delimiter class, stripping and dropping
empties. -/
def extract_skills_section (text : String) : List String :=
  match reSearch skills_section_pat text.data with
  | some (_, _, caps) =>
    match capGet caps 1 with
    | some span =>
      let skills_text := sliceL text.data span.1 span.2
      ((skills_text.splitOnP skillSplitChar).map (fun cs => (⟨pyStripL cs⟩ : String))).filter
        (· ≠ "")
    | none => []
  | none => []

/-- The word-boundary pattern `r'\b' + re.escape(skill) + r'\b'` used to
match a known skill. -/
def knownSkillPat (skill : String) : RE := .seq .bnd (.seq (rStr skill) .bnd)

/-- Ordered-set insertion (Python `set.add`, with the iteration order
fixed to insertion order). -/
def setAdd (s : List String) (x : String) : List String :=
  if s.contains x then s else s ++ [x]

/-- Bump a mention counter (`defaultdict(int)`). -/
def bumpMentions (m : List (String × Nat)) (x : String) (k : Nat) : List (String × Nat) :=
  if m.any (fun p => p.1 = x) then
    m.map (fun p => if p.1 = x then (p.1, p.2 + k) else p)
  else m ++ [(x, k)]

/-- Mention count lookup (`mentions.get(skill, 0)`). -/
def mentionsGet (m : List (String × Nat)) (x : String) : Nat :=
  (((m.find? (fun p => p.1 = x)).map (·.2))).getD 0

/-- Reverse category lookup `skill_to_category.get(skill.lower(), 'Other')`;
dictionary assignment order makes the last-written category win. -/
def skillCategoryOf (skill : String) : String :=
  match (skill_categories.reverse.find? (fun p => p.2.contains (pyLower skill))) with
  | some p => p.1
  | none => "Other"

/-- `SkillExtractor._categorize_skills`: bucket skills by category in
first-occurrence order. -/
def categorize_skills (skills : List String) : List (String × List String) :=
  skills.foldl
    (fun acc skill =>
      let cat := skillCategoryOf skill
      if acc.any (fun p => p.1 = cat) then
        acc.map (fun p => if p.1 = cat then (p.1, p.2 ++ [skill]) else p)
      else acc ++ [(cat, [skill])])
    []

/-- `SkillExtractor._is_in_skills_section`. -/
def is_in_skills_section (skill : String) (text : String) : Bool :=
  ((extract_skills_section text).map pyLower).contains (pyLower skill)

/-- `SkillExtractor._calculate_confidence_scores`: mention-count base
(capped at 0.6), skills-section bonus 0.3, known-skill bonus 0.1,
capped at 1.0. -/
def calculate_confidence_scores (skills : List String) (mentions : List (String × Nat))
    (text : String) : List (String × ℚ) :=
  skills.map (fun skill =>
    let base : ℚ :=
      if 0 < mentionsGet mentions skill then
        min ((mentionsGet mentions skill : ℚ) * (2/10)) (6/10)
      else 0
    let section_bonus : ℚ := if is_in_skills_section skill text then 3/10 else 0
    let known_bonus : ℚ :=
      if skill_categories.any (fun p => p.2.contains (pyLower skill)) then 1/10 else 0
    (skill, min (base + section_bonus + known_bonus) 1))

/-- Result dictionary of `extract_skills`. -/
structure SkillsResult where
  skills : List String
  skill_scores : List (String × ℚ)
  categorized_skills : List (String × List String)
  total_skills : Nat
  skill_mentions : List (String × Nat)
deriving Repr, DecidableEq

/-- `SkillExtractor._basic_skill_extraction`: the spaCy-free fallback —
known-skill word-boundary matching only, every score fixed at 0.7. -/
def basic_skill_extraction (text : String) : SkillsResult :=
  let text_lower := pyLower text
  let skills_set := all_known_skills.foldl
    (fun acc skill =>
      if (reSearch (knownSkillPat skill) text_lower.data).isSome then
        match normalize_skill skill with
        | some normalized => setAdd acc normalized
        | none => acc
      else acc)
    []
  { skills := skills_set
    skill_scores := skills_set.map (fun s => (s, 7/10))
    categorized_skills := categorize_skills skills_set
    total_skills := skills_set.length
    skill_mentions := [] }

/-- Named-entity-recognition oracle: spaCy is an external model; it is
modelled as a function from the (lowered) document text to entities
`(text, label)`. -/
def NerOracle := String → List (String × String)

/-- The accumulated `(skills_set, skill_mentions)` state of
`extract_skills`. -/
abbrev SkillSt := List String × List (String × Nat)

/-- Method 1 of `extract_skills`: named entities with the selected
labels, normalized into the skill set and mention counts. -/
def skillsFromEnts (ents : List (String × String)) : SkillSt :=
  ents.foldl
    (fun (st : SkillSt) ent =>
      if ent.2 = "ORG" || ent.2 = "PRODUCT" || ent.2 = "TECH" then
        match normalize_skill ent.1 with
        | some skill => (setAdd st.1 skill, bumpMentions st.2 skill 1)
        | none => st
      else st)
    ([], [])

/-- Method 2 of `extract_skills`: word-boundary matching of every known
skill against the lowered text, counting `findall` occurrences. -/
def addKnownSkills (text_lower : String) (st0 : SkillSt) : SkillSt :=
  all_known_skills.foldl
    (fun (st : SkillSt) skill =>
      if (reSearch (knownSkillPat skill) text_lower.data).isSome then
        match normalize_skill skill with
        | some normalized =>
          (setAdd st.1 normalized,
           bumpMentions st.2 normalized (reFindAll (knownSkillPat skill) text_lower.data).length)
        | none => st
      else st)
    st0

/-- Method 3 of `extract_skills`: skills from the dedicated skills
section. -/
def addSectionSkills (text : String) (st0 : SkillSt) : SkillSt :=
  (extract_skills_section text).foldl
    (fun (st : SkillSt) skill =>
      match normalize_skill skill with
      | some normalized => (setAdd st.1 normalized, bumpMentions st.2 normalized 1)
      | none => st)
    st0

/-- `SkillExtractor.extract_skills`: named-entity candidates, known-skill
word-boundary matching, and skills-section parsing — all three methods
run unconditionally and their results are unioned — followed by
confidence scoring and filtering by `min_confidence`.  With no spaCy
model (`nlp = none`) the basic fallback runs instead. -/
def extract_skills (nlp : Option NerOracle) (text : String) (min_confidence : ℚ) :
    SkillsResult :=
  match nlp with
  | none => basic_skill_extraction text
  | some oracle =>
    let ents := oracle (pyLower text)
    let text_lower := pyLower text
    let st3 := addSectionSkills text (addKnownSkills text_lower (skillsFromEnts ents))
    let skills_set := st3.1
    let skill_mentions := st3.2
    let skill_scores := calculate_confidence_scores skills_set skill_mentions text
    let filtered := skill_scores.filter (fun p => min_confidence ≤ p.2)
    { skills := filtered.map (·.1)
      skill_scores := filtered
      categorized_skills := categorize_skills skills_set
      total_skills := filtered.length
      skill_mentions := skill_mentions }

/-! ### `BiasDetector` (`bias_detector.py`) -/

/-- Masculine-coded word list. -/
def masculine_words : List String :=
  ["aggressive", "ambitious", "assertive", "competitive", "confident",
   "decisive", "determined", "dominant", "independent", "leader",
   "logical", "objective", "outspoken", "strong", "tough"]

/-- Feminine-coded word list. -/
def feminine_words : List String :=
  ["collaborative", "compassionate", "cooperative", "emotional",
   "gentle", "helpful", "nurturing", "sensitive", "supportive",
   "understanding", "warm", "caring", "empathetic"]

/-- The age-bias regexes (`age_patterns`), compiled with
`re.IGNORECASE`:
`\b\d{2,3}\s*years?\s+old\b`, `\b(recent|new)\s+graduate\b`,
`\b(fresh|young)\s+talent\b`, `\bseasoned\s+professional\b`,
`\bexperienced\s+executive\b`. -/
def age_patterns : List RE :=
  [.seq .bnd (.seq (rRange 2 3 (.cls clsD)) (.seq (rStar (.cls clsS))
    (.seq (rStrCI "year") (.seq (rOpt (rChCI 's')) (.seq (rPlus (.cls clsS))
    (.seq (rStrCI "old") .bnd)))))),
   .seq .bnd (.seq (.group 1 (.alt (rStrCI "recent") (rStrCI "new")))
    (.seq (rPlus (.cls clsS)) (.seq (rStrCI "graduate") .bnd))),
   .seq .bnd (.seq (.group 1 (.alt (rStrCI "fresh") (rStrCI "young")))
    (.seq (rPlus (.cls clsS)) (.seq (rStrCI "talent") .bnd))),
   .seq .bnd (.seq (rStrCI "seasoned") (.seq (rPlus (.cls clsS))
    (.seq (rStrCI "professional") .bnd))),
   .seq .bnd (.seq (rStrCI "experienced") (.seq (rPlus (.cls clsS))
    (.seq (rStrCI "executive") .bnd)))]

/-- Institution-bias keywords. -/
def institution_bias_keywords : List String :=
  ["ivy league", "top tier", "prestigious", "elite", "top university", "leading institution"]

/-- Per-category detection result (`score`, `detected`, hit count). -/
structure BiasCat where
  detected : Bool
  score : ℚ
  hits : Nat
deriving Repr, DecidableEq

/-- `BiasDetector._detect_gender_bias`: imbalance of masculine- vs
feminine-coded substrings, blended with total volume. -/
def detect_gender_bias (text : String) : BiasCat :=
  let text_lower := pyLower text
  let masculine_count := (masculine_words.filter (fun w => isSubS w text_lower)).length
  let feminine_count := (feminine_words.filter (fun w => isSubS w text_lower)).length
  let total_biased := masculine_count + feminine_count
  let imbalance : ℚ :=
    |(masculine_count : ℚ) - (feminine_count : ℚ)| / (max total_biased 1 : ℚ)
  let score := min (imbalance * (5/10) + ((total_biased : ℚ) / 20) * (5/10)) 1
  {detected := 0 < total_biased, score := score, hits := total_biased}

/-- `BiasDetector._detect_age_bias`: regex hit count over the age
patterns, scored as `min(hits/5, 1)`. -/
def detect_age_bias (text : String) : BiasCat :=
  let text_lower := pyLower text
  let hitCount := (age_patterns.map (fun p => (reFindAll p text_lower.data).length)).sum
  {detected := 0 < hitCount, score := min ((hitCount : ℚ) / 5) 1, hits := hitCount}

/-- `BiasDetector._detect_institution_bias`: keyword substring hits,
scored as `min(hits/3, 1)`. -/
def detect_institution_bias (text : String) : BiasCat :=
  let text_lower := pyLower text
  let hitCount := (institution_bias_keywords.filter (fun kw => isSubS kw text_lower)).length
  {detected := 0 < hitCount, score := min ((hitCount : ℚ) / 3) 1, hits := hitCount}

/-- The recommendation templates, kept as tags. -/
inductive BiasRec where
  | genderNeutralLanguage
  | removeAgeLanguage
  | avoidInstitutionTiers
  | looksUnbiased
deriving Repr, DecidableEq

/-- Result of `detect_job_description_bias`. -/
structure BiasReport where
  gender_bias : BiasCat
  age_bias : BiasCat
  institution_bias : BiasCat
  overall_bias_score : ℚ
  recommendations : List BiasRec
deriving Repr, DecidableEq

/-- `BiasDetector._generate_bias_recommendations`: template strings gated
on a per-category score above 0.3, with a default message otherwise. -/
def generate_bias_recommendations (g a i : BiasCat) : List BiasRec :=
  let recs :=
    (if 3/10 < g.score then [BiasRec.genderNeutralLanguage] else []) ++
    (if 3/10 < a.score then [BiasRec.removeAgeLanguage] else []) ++
    (if 3/10 < i.score then [BiasRec.avoidInstitutionTiers] else [])
  if recs.isEmpty then [.looksUnbiased] else recs

/-- `BiasDetector.detect_job_description_bias`: the three category
detectors, the max as overall score, gated recommendations. -/
def detect_job_description_bias (job_description : String) : BiasReport :=
  let g := detect_gender_bias job_description
  let a := detect_age_bias job_description
  let i := detect_institution_bias job_description
  { gender_bias := g
    age_bias := a
    institution_bias := i
    overall_bias_score := max g.score (max a.score i.score)
    recommendations := generate_bias_recommendations g a i }

/-- The email regex of `_anonymize_text`:
`\b[A-Za-z0-9._%+-]+@[A-Za-z0-9.-]+\.[A-Z|a-z]{2,}\b` (note the literal
`|` inside the final class, as written in the source). -/
def email_pat : RE :=
  .seq .bnd
  (.seq (rPlus (.cls {singles := ['.', '_', '%', '+', '-'],
                      ranges := [('A', 'Z'), ('a', 'z'), ('0', '9')]}))
  (.seq (rCh '@')
  (.seq (rPlus (.cls {singles := ['.', '-'], ranges := [('A', 'Z'), ('a', 'z'), ('0', '9')]}))
  (.seq (rCh '.')
  (.seq (rAtLeast 2 (.cls {singles := ['|'], ranges := [('A', 'Z'), ('a', 'z')]}))
  .bnd)))))

/-- The phone regex of `_anonymize_text`:
`[\+]?[(]?[0-9]{3}[)]?[-\s\.]?[0-9]{3}[-\s\.]?[0-9]{4,6}`. -/
def phone_pat : RE :=
  .seq (rOpt (rCh '+'))
  (.seq (rOpt (rCh '('))
  (.seq (rRep 3 (.cls clsD))
  (.seq (rOpt (rCh ')'))
  (.seq (rOpt (.cls {singles := ['-', '.', ' ', '\t', '\n', '\r', '\x0b', '\x0c']}))
  (.seq (rRep 3 (.cls clsD))
  (.seq (rOpt (.cls {singles := ['-', '.', ' ', '\t', '\n', '\r', '\x0b', '\x0c']}))
  (rRange 4 6 (.cls clsD))))))))

/-- The URL regex of `_anonymize_text`: `https?://[^\s]+`. -/
def url_pat : RE :=
  .seq (rStr "http") (.seq (rOpt (rCh 's')) (.seq (rStr "://")
    (rPlus (.cls {singles := [' ', '\t', '\n', '\r', '\x0b', '\x0c'], negq := true}))))

/-- The capitalized-word masking loop of `_anonymize_text`: words (split
on whitespace) that start uppercase, are longer than two characters and
are purely alphabetic become `***`; the result is re-joined with single
spaces. -/
def maskCapitalizedWords (cs : List Char) : List Char :=
  let words := pySplitWs cs
  let masked := words.map (fun w =>
    match w with
    | [] => w
    | c :: _ => if c.isUpper && 2 < w.length && w.all Char.isAlpha then "***".data else w)
  (masked.intersperse " ".data).flatten

/-- `BiasDetector._anonymize_text`: email, phone and URL substitution
followed by capitalized-word masking. -/
def anonymize_text (text : String) : String :=
  let t1 := reSub email_pat "***@***.***".data text.data
  let t2 := reSub phone_pat "***-***-****".data t1
  let t3 := reSub url_pat "***".data t2
  ⟨maskCapitalizedWords t3⟩

/-- The fixed placeholder contact record installed by
`anonymize_resume`. -/
def placeholderContact : ContactInfo :=
  {email := some "***@***.***", phone := some "***-***-****",
   linkedin := none, github := none, website := none}

/-- `BiasDetector.anonymize_resume`: replaces `contact_info` with fixed
placeholders, anonymizes `raw_text` and each experience's
`achievements`, and replaces education institutions — all other fields
(notably experience `description` texts) are copied verbatim. -/
def anonymize_resume (resume_data : ResumeData) : ResumeData :=
  let contact := match resume_data.contact_info with
    | some _ => some placeholderContact
    | none => none
  { resume_data with
    contact_info := contact
    raw_text := anonymize_text resume_data.raw_text
    experience :=
      { resume_data.experience with
        experiences := resume_data.experience.experiences.map (fun exp =>
          {exp with achievements := exp.achievements.map (fun a => anonymize_text a)}) }
    education :=
      { resume_data.education with
        educations := resume_data.education.educations.map (fun _ =>
          {institution := "*** University"}) } }

/-! ### `ExperienceParser` (`experience_parser.py`)

`dateparser.parse` is an external library; it is modelled as an oracle
`dp : String → Option Int` returning the day number of the parsed
datetime (`none` for unparseable input).  The source stores parsed dates
as `isoformat()` strings and re-parses them in `_enrich_experience`; the
round trip is the identity, so dates are carried as day numbers
directly.  `datetime.now()` is the parameter `now`. -/

/-- Class `[:\s]`. -/
def clsColonSpace : CharCls := {singles := [':', ' ', '\t', '\n', '\r', '\x0b', '\x0c']}

/-- `job_title_patterns` (matched with `re.IGNORECASE`):
pattern 1 is
`(?:Senior|Junior|Lead|Principal|Staff|Associate)?\s*(?:Software|Backend|Frontend|Full.?Stack|DevOps|Data|ML|AI)?\s*(?:Engineer|Developer|Architect|Scientist|Analyst|Manager|Director)`,
pattern 2 `(?:Product|Project|Engineering|Technical)?\s*Manager`,
pattern 3 `(?:Chief|VP|Vice President|Head of)\s+\w+`. -/
def job_title_patterns : List RE :=
  [.seq (rOpt (rAlts [rStrCI "Senior", rStrCI "Junior", rStrCI "Lead", rStrCI "Principal",
      rStrCI "Staff", rStrCI "Associate"]))
   (.seq (rStar (.cls clsS))
   (.seq (rOpt (rAlts [rStrCI "Software", rStrCI "Backend", rStrCI "Frontend",
      .seq (rStrCI "Full") (.seq (rOpt (.cls clsDot)) (rStrCI "Stack")),
      rStrCI "DevOps", rStrCI "Data", rStrCI "ML", rStrCI "AI"]))
   (.seq (rStar (.cls clsS))
   (rAlts [rStrCI "Engineer", rStrCI "Developer", rStrCI "Architect", rStrCI "Scientist",
      rStrCI "Analyst", rStrCI "Manager", rStrCI "Director"])))),
   .seq (rOpt (rAlts [rStrCI "Product", rStrCI "Project", rStrCI "Engineering",
      rStrCI "Technical"]))
   (.seq (rStar (.cls clsS)) (rStrCI "Manager")),
   .seq (rAlts [rStrCI "Chief", rStrCI "VP", rStrCI "Vice President", rStrCI "Head of"])
   (.seq (rPlus (.cls clsS)) (rPlus (.cls clsW)))]

/-- `company_patterns` (matched case-sensitively):
`[A-Z][a-zA-Z0-9\s&]+(?:Inc\.?|LLC|Ltd\.?|Corp\.?|Corporation)?` and
`[A-Z]{2,}`. -/
def company_patterns : List RE :=
  [.seq (.cls {ranges := [('A', 'Z')]})
   (.seq (rPlus (.cls {singles := ['&', ' ', '\t', '\n', '\r', '\x0b', '\x0c'],
                       ranges := [('a', 'z'), ('A', 'Z'), ('0', '9')]}))
   (rOpt (rAlts [.seq (rStr "Inc") (rOpt (rCh '.')), rStr "LLC",
      .seq (rStr "Ltd") (rOpt (rCh '.')), .seq (rStr "Corp") (rOpt (rCh '.')),
      rStr "Corporation"]))),
   rAtLeast 2 (.cls {ranges := [('A', 'Z')]})]

/-- The dash class `[-–—]` (hyphen, en dash, em dash as in the source). -/
def clsDash : CharCls := {singles := ['-', '–', '—']}

/-- `date_range_patterns` of `_parse_date_range` (`re.IGNORECASE`):
`(\w+\s+\d{4})\s*[-–—]\s*(\w+\s+\d{4}|Present|Current|Now)`,
the same with each side `\d{1,2}` then a slash-or-hyphen then `\d{4}`, and
`(\d{4})\s*[-–—]\s*(\d{4}|Present|Current|Now)`. -/
def date_range_patterns : List RE :=
  let wordDate := .seq (rPlus (.cls clsW)) (.seq (rPlus (.cls clsS)) (rRep 4 (.cls clsD)))
  let slashDate := .seq (rRange 1 2 (.cls clsD))
    (.seq (.cls {singles := ['/', '-']}) (rRep 4 (.cls clsD)))
  let yearDate := rRep 4 (.cls clsD)
  let pcn := rAlts [rStrCI "Present", rStrCI "Current", rStrCI "Now"]
  let mk (d : RE) : RE :=
    .seq (.group 1 d)
    (.seq (rStar (.cls clsS)) (.seq (.cls clsDash) (.seq (rStar (.cls clsS))
      (.group 2 (.alt d pcn)))))
  [mk wordDate, mk slashDate, mk yearDate]

/-- `achievement_indicators` of `_is_achievement` (`re.IGNORECASE`):
`^[•\-\*]\s*`, `^[A-Z][a-z]+\s+(?:by|to|from|with)\s+`, `\d+%`, `\$\d+`,
`(?:increased|decreased|improved|achieved|delivered|led|managed)`. -/
def achievement_indicators : List RE :=
  [.seq .bol (.seq (.cls {singles := ['•', '-', '*']}) (rStar (.cls clsS))),
   .seq .bol (.seq (.cls {ranges := [('A', 'Z')], ci := true})
     (.seq (rPlus (.cls {ranges := [('a', 'z')], ci := true}))
     (.seq (rPlus (.cls clsS))
     (.seq (rAlts [rStrCI "by", rStrCI "to", rStrCI "from", rStrCI "with"])
     (rPlus (.cls clsS)))))),
   .seq (rPlus (.cls clsD)) (rCh '%'),
   .seq (rCh '$') (rPlus (.cls clsD)),
   rAlts [rStrCI "increased", rStrCI "decreased", rStrCI "improved", rStrCI "achieved",
     rStrCI "delivered", rStrCI "led", rStrCI "managed"]]

/-- The experience-section patterns of `_find_experience_section`
(`re.IGNORECASE | re.DOTALL`):
`(?:Work\s+)?Experience[:\s]*\n(.*?)(?:\n\n[A-Z]|$)` and the
`Employment`/`Professional\s+Experience`/`Career` variants. -/
def experience_section_patterns : List RE :=
  let tail := .seq (rStar (.cls clsColonSpace))
    (.seq (rCh '\n')
    (.seq (rLazyAllGroup 1)
    (.alt (.seq (rCh '\n') (.seq (rCh '\n') (.cls {ranges := [('A', 'Z')], ci := true})))
      .eol)))
  [.seq (rOpt (.seq (rStrCI "Work") (rPlus (.cls clsS)))) (.seq (rStrCI "Experience") tail),
   .seq (rStrCI "Employment") tail,
   .seq (rStrCI "Professional") (.seq (rPlus (.cls clsS)) (.seq (rStrCI "Experience") tail)),
   .seq (rStrCI "Career") tail]

/-- A work-experience entry as built by `_parse_experience_header` and
the parsing loop, before enrichment. -/
structure ExpEntry where
  job_title : Option String := none
  company : Option String := none
  start_date : Option Int := none
  end_date : Option Int := none
  is_current : Bool := false
  achievements : List String := []
  description : List String := []
deriving Repr, DecidableEq

/-- An entry after `_enrich_experience` added the computed fields
(the source mutates the dictionary in place; `description_joined`
models the list-to-string replacement of `description`). -/
structure EnrExp extends ExpEntry where
  duration_months : Option Int := none
  duration_years : Option ℚ := none
  description_joined : Option String := none
  key_achievements : List String := []
deriving Repr, DecidableEq

/-- `ExperienceParser._find_experience_section`: first pattern with a
match wins; returns the captured section body. -/
def find_experience_section (text : String) : Option (List Char) :=
  let rec go : List RE → Option (List Char)
    | [] => none
    | p :: rest =>
      match reSearch p text.data with
      | some (_, _, caps) =>
        match capGet caps 1 with
        | some span => some (sliceL text.data span.1 span.2)
        | none => none
      | none => go rest
  go experience_section_patterns

/-- The result dictionary of `_parse_date_range`. -/
structure DateRange where
  start_date : Int
  end_date : Option Int
  is_current : Bool
deriving Repr, DecidableEq

/-- `ExperienceParser._parse_date_range`: try the three range patterns in
order; a pattern only yields a result if both sides parse (a current end
uses `datetime.now()`), otherwise the next pattern is tried. -/
def parse_date_range (dp : String → Option Int) (now : Int) (cs : List Char) :
    Option DateRange :=
  let rec go : List RE → Option DateRange
    | [] => none
    | p :: rest =>
      match reSearch p cs with
      | some (_, _, caps) =>
        (match capGet caps 1, capGet caps 2 with
         | some sp1, some sp2 =>
           let start_str : String := ⟨sliceL cs sp1.1 sp1.2⟩
           let end_str : String := ⟨sliceL cs sp2.1 sp2.2⟩
           let is_current := ["present", "current", "now"].contains (pyLower end_str)
           let startD := dp start_str
           let endD := if is_current then some now else dp end_str
           match startD, endD with
           | some s, some e =>
             some {start_date := s,
                   end_date := if is_current then none else some e,
                   is_current := is_current}
           | _, _ => go rest
         | _, _ => go rest)
      | none => go rest
  go date_range_patterns

/-- `ExperienceParser._is_experience_header`: any job-title pattern
(case-insensitively) or company pattern (case-sensitively) matches. -/
def is_experience_header (line : String) : Bool :=
  job_title_patterns.any (fun p => (reSearch p line.data).isSome) ||
    company_patterns.any (fun p => (reSearch p line.data).isSome)

/-- The company extraction loop of `_parse_experience_header`: for the
first pattern with matches whose filtered list (length > 2, not
the/and/or) is non-empty, take the first filtered match. -/
def findCompany (cs : List Char) : Option String :=
  let rec go : List RE → Option String
    | [] => none
    | p :: rest =>
      let ms := (reFindAll p cs).map (fun m => (⟨sliceL cs m.1 m.2.1⟩ : String))
      if ms.isEmpty then go rest
      else
        match ms.filter (fun m =>
            2 < m.length && !(["the", "and", "or"].contains (pyLower m))) with
        | [] => go rest
        | f :: _ => some (pyStrip f)
  go company_patterns

/-- `ExperienceParser._parse_experience_header`: job title from the first
matching title pattern, company from the filtered company matches, dates
from `_parse_date_range`. -/
def parse_experience_header (dp : String → Option Int) (now : Int) (line : String) :
    ExpEntry :=
  let job_title :=
    match job_title_patterns.findSome? (fun p => reSearch p line.data) with
    | some (s, e, _) => some (pyStrip ⟨sliceL line.data s e⟩)
    | none => none
  let base : ExpEntry := {job_title := job_title, company := findCompany line.data}
  match parse_date_range dp now line.data with
  | some dr =>
    {base with start_date := some dr.start_date, end_date := dr.end_date,
               is_current := dr.is_current}
  | none => base

/-- `ExperienceParser._is_achievement`. -/
def is_achievement (line : String) : Bool :=
  achievement_indicators.any (fun p => (reSearch p line.data).isSome)

/-- The line loop of `_parse_experiences`.  A non-header, non-achievement
line while an entry is open reaches `self._is_date_range(line)` — a
method that does not exist anywhere in the class — raising
`AttributeError` (modelled as `Except.error`), which
`extract_experience`'s handler turns into the empty result. -/
def parse_experiences_raw (dp : String → Option Int) (now : Int) :
    List String → Option ExpEntry → List ExpEntry → Except Unit (List ExpEntry)
  | [], current, acc =>
    .ok (acc ++ (match current with | some e => [e] | none => []))
  | line :: rest, current, acc =>
    let line := pyStrip line
    if line = "" then parse_experiences_raw dp now rest current acc
    else if is_experience_header line then
      parse_experiences_raw dp now rest (some (parse_experience_header dp now line))
        (acc ++ (match current with | some e => [e] | none => []))
    else
      match current with
      | some cur =>
        if is_achievement line then
          parse_experiences_raw dp now rest
            (some {cur with achievements := cur.achievements ++ [line]}) acc
        else .error ()
      | none => parse_experiences_raw dp now rest current acc

/-- `ExperienceParser._enrich_experience`: duration computed from the
dates at `30.44` days per month (`int` truncation for months, one-digit
rounding for years), stripped title/company, joined description, top
five achievements. -/
def enrich_experience (now : Int) (e : ExpEntry) : EnrExp :=
  let base : EnrExp := {toExpEntry := e}
  let withDur :=
    match e.start_date with
    | some s =>
      let endD := if e.is_current || e.end_date.isNone then now else e.end_date.getD 0
      let months : ℚ := ((endD - s : ℤ) : ℚ) / (3044/100)
      let years : ℚ := months / 12
      {base with duration_months := some (pyTrunc months),
                 duration_years := some (pyRound 1 years)}
    | none => base
  { withDur with
    job_title := e.job_title.map pyStrip
    company := e.company.map pyStrip
    description_joined :=
      if e.description.isEmpty then none else some (String.intercalate " " e.description)
    key_achievements := if e.achievements.isEmpty then [] else e.achievements.take 5 }

/-- `ExperienceParser._parse_experiences`: the line loop followed by the
enrichment pass. -/
def parse_experiences (dp : String → Option Int) (now : Int) (experience_text : String) :
    Except Unit (List EnrExp) :=
  (parse_experiences_raw dp now
      ((experience_text.data.splitOnP (fun c => c = '\n')).map
        (fun cs => (⟨cs⟩ : String))) none []).map
    (List.map (enrich_experience now))

/-- The result dictionary of `extract_experience`; the zero result
(no section found, or the exception handler) carries no
`experience_count` key. -/
structure ExperienceResult where
  experiences : List EnrExp := []
  total_experience_months : Int := 0
  total_experience_years : ℚ := 0
  current_position : Option EnrExp := none
  experience_count : Option Nat := none
deriving Repr, DecidableEq

/-- `ExperienceParser.extract_experience`: locate the experience section,
parse and enrich the entries, and total the entries' `duration_months`
over **all** parsed positions (no internship/academic filtering exists
in this function). -/
def extract_experience (dp : String → Option Int) (now : Int) (text : String) :
    ExperienceResult :=
  match find_experience_section text with
  | none => {}
  | some sectionBody =>
    match parse_experiences dp now ⟨sectionBody⟩ with
    | .error _ => {}
    | .ok exps =>
      let total_months : Int := (exps.map (fun e => e.duration_months.getD 0)).sum
      let total_years : ℚ := (total_months : ℚ) / 12
      { experiences := exps
        total_experience_months := total_months
        total_experience_years := pyRound 1 total_years
        current_position := exps.find? (·.is_current)
        experience_count := some exps.length }

/-! ### `CandidateMatcher._is_internship_position` (`candidate_matcher.py`)

The spec's internship/academic classification of a position
(internship-coded terms present, professional-role terms absent). -/

/-- The internship keyword list. -/
def internship_keywords : List String :=
  ["intern", "internship", "trainee", "virtual internship", "co-op", "coop",
   "student", "academic", "university project", "college project", "project"]

/-- The professional-role indicator list. -/
def professional_indicators : List String :=
  ["manager", "executive", "lead", "officer", "specialist",
   "director", "coordinator", "analyst", "engineer", "developer",
   "consultant", "supervisor", "head of"]

/-- `CandidateMatcher._is_internship_position` on a parsed entry:
professional indicators in the title override; otherwise internship
keywords in the title, else in the description-or-company text, decide. -/
def is_internship_position (e : EnrExp) : Bool :=
  let title := pyLower (e.job_title.getD "")
  let has_internship_keyword := internship_keywords.any (fun kw => isSubS kw title)
  let has_professional_indicator := professional_indicators.any (fun kw => isSubS kw title)
  if has_professional_indicator then false
  else if has_internship_keyword then true
  else
    let d := e.description_joined.getD ""
    let description := pyLower (if d ≠ "" then d else e.company.getD "")
    if internship_keywords.any (fun kw => isSubS kw description) then
      !(professional_indicators.any (fun kw => isSubS kw description))
    else false

/-! ### `MatchingOrchestrator` (`matching_orchestrator.py`)

The database session is modelled as lists of records; the Redis score
cache (`performance_optimizer.get_cached_match_result`) is an oracle
`(job_id, candidate_id) → Option RankCandidate` (cache writes do not
affect the return value and are not modelled). -/

/-- A `Job` row, with `requirements_json` as an optional requirements
record. -/
structure OrchJob where
  id : String := ""
  title : String := ""
  description : String := ""
  requirements_json : Option JobRequirements := none
deriving Repr, DecidableEq

/-- A `Resume` row; `parsed_data_json := none` models both an absent and
an empty parsed payload (both falsy in `if not resume.parsed_data_json`). -/
structure OrchResume where
  id : String := ""
  parsed_data_json : Option ResumeData := none
  status : String := ""
deriving Repr, DecidableEq

/-- A `Candidate` row. -/
structure OrchCandidate where
  id : String := ""
  anonymized_id : String := ""
  resume_id : String := ""
deriving Repr, DecidableEq

/-- A persisted `MatchResult` row (the upsert target of
`_store_match_results`). -/
structure StoredMatch where
  job_id : String
  candidate_id : String
  overall_score : ℚ
  component_scores : CompScores
  rank : String
deriving Repr, DecidableEq

/-- The modelled database state. -/
structure OrchDb where
  jobs : List OrchJob := []
  resumes : List OrchResume := []
  candidates : List OrchCandidate := []
  match_results : List StoredMatch := []
deriving Repr, DecidableEq

/-- The score-cache oracle. -/
def ScoreCache := String → String → Option RankCandidate

/-- The empty (all-miss) cache. -/
def emptyCache : ScoreCache := fun _ _ => none

/-- Typed Python exceptions surfaced by the orchestrator's handler. -/
inductive PyErr where
  | valueError (msg : String)
  | unboundLocal (name : String)
  | nameError (name : String)
deriving Repr, DecidableEq

/-- The job-requirements dictionary built by `match_job_to_candidates`
from `job.requirements_json` (every key present, with the documented
defaults; in particular `preferred_experience_years` defaults to `0`,
unlike the scoring engine's own `.get` default). -/
def buildJobRequirements (rj : Option JobRequirements) : JobRequirements :=
  match rj with
  | none => {preferred_experience_years := some 0}
  | some r => {r with preferred_experience_years := some (r.preferred_experience_years.getD 0)}

/-- `MatchingOrchestrator._standard_matching`: per candidate — resume
lookup, cached result short-circuit, scoring, and the two `continue`
statements that silently drop candidates without parsed resume data and
candidates that fail the mandatory gate. -/
def standard_matching (db : OrchDb) (job : OrchJob) (candidates : List OrchCandidate)
    (job_requirements : JobRequirements) (weights : Option Weights) (cache : ScoreCache) :
    List RankCandidate :=
  candidates.flatMap (fun candidate =>
    match db.resumes.find? (fun r => r.id = candidate.resume_id) with
    | none => []
    | some resume =>
      match resume.parsed_data_json with
      | none => []
      | some resume_data =>
        match cache job.id candidate.id with
        | some cached => [cached]
        | none =>
          match calculate_match_score resume_data job_requirements weights with
          | .ok overall skills experience education skb exb edb _ expl =>
            [{candidate_id := candidate.id
              anonymized_id := candidate.anonymized_id
              resume_id := resume.id
              resume_data := resume_data
              overall_score := overall
              component_scores :=
                {skills := skills, experience := experience, education := education}
              skill_breakdown := skb
              exp_breakdown := exb
              edu_breakdown := edb
              explItems := expl}]
          | .mandatoryFailed => []
          | .scoringError => [])

/-- `MatchingOrchestrator._comprehensive_matching`: standard matching
plus the anonymized-profile augmentation. -/
def comprehensive_matching (db : OrchDb) (job : OrchJob) (candidates : List OrchCandidate)
    (job_requirements : JobRequirements) (weights : Option Weights) (cache : ScoreCache) :
    List RankCandidate :=
  (standard_matching db job candidates job_requirements weights cache).map (fun r =>
    {r with anonymized_data := some (anonymize_resume r.resume_data)})

/-- `MatchingOrchestrator._store_match_results`: upsert each ranked
candidate by `(job_id, candidate_id)`. -/
def store_match_results (job_id : String) (ranked : List RankCandidate)
    (rows : List StoredMatch) : List StoredMatch :=
  let rec go : Nat → List RankCandidate → List StoredMatch → List StoredMatch
    | _, [], rows => rows
    | rank, c :: rest, rows =>
      let row : StoredMatch :=
        { job_id := job_id, candidate_id := c.candidate_id,
          overall_score := c.overall_score, component_scores := c.component_scores,
          rank := toString rank }
      let rows' :=
        if rows.any (fun r => r.job_id = job_id && r.candidate_id = c.candidate_id) then
          rows.map (fun r =>
            if r.job_id = job_id && r.candidate_id = c.candidate_id then row else r)
        else rows ++ [row]
      go (rank + 1) rest rows'
  go 1 ranked rows

/-- The value returned by `match_job_to_candidates`: the success
dictionary, the empty-candidates dictionary, or the exception handler's
`{'job_id', 'error', 'candidates_matched': 0}` dictionary.  The success
constructor mirrors the return statement at the end of the `try` block;
it is never reached, because the audit-log call before it evaluates the
local `processing_time`, which is first assigned only after that call. -/
inductive MatchResponse where
  | success (job_id job_title : String) (candidates_matched : Nat)
      (ranked_results : List RankCandidate) (clusters : List (String × List Nat))
      (bias_detection : Option BiasReport) (strategy_used : String)
      (diversity_enabled : Bool)
  | noCandidates (job_id : String)
  | errorResp (job_id : String) (e : PyErr)
deriving Repr, DecidableEq

/-- The candidate query of `match_job_to_candidates`: an explicit id
list filters by id; otherwise all candidates joined to a processed
resume. -/
def selectCandidates (db : OrchDb) (candidate_ids : Option (List String)) :
    List OrchCandidate :=
  match candidate_ids with
  | some ids => db.candidates.filter (fun c => ids.contains c.id)
  | none =>
    db.candidates.filter (fun c =>
      db.resumes.any (fun r => r.id = c.resume_id && r.status = "processed"))

/-- `MatchingOrchestrator.match_job_to_candidates`: job lookup, optional
bias detection, candidate selection, strategy dispatch, ranking,
persistence — and then the audit-log call whose `details` dictionary
reads `processing_time` before its assignment, raising
`UnboundLocalError`, so every run that reaches it returns the
exception-handler dictionary.  The `'fast'` strategy instead hits the
module's unimported `embedding_generator` name first. -/
def match_job_to_candidates (db : OrchDb) (job_id : String)
    (candidate_ids : Option (List String)) (strategy : String)
    (weights : Option Weights) (diversity_weight : ℚ)
    (enable_bias_detection : Bool) (cache : ScoreCache) (now : Int) : MatchResponse :=
  match db.jobs.find? (fun j => j.id = job_id) with
  | none => .errorResp job_id (.valueError ("Job " ++ job_id ++ " not found"))
  | some job =>
    let _bias_results : Option BiasReport :=
      if enable_bias_detection then some (detect_job_description_bias job.description)
      else none
    let candidates := selectCandidates db candidate_ids
    if candidates.isEmpty then .noCandidates job_id
    else
      let job_requirements := buildJobRequirements job.requirements_json
      let strategyName :=
        if ["standard", "fast", "comprehensive"].contains strategy then strategy
        else "standard"
      if strategyName = "fast" then .errorResp job_id (.nameError "embedding_generator")
      else
        let _match_results :=
          if strategyName = "comprehensive" then
            comprehensive_matching db job candidates job_requirements weights cache
          else standard_matching db job candidates job_requirements weights cache
        let _ranked_results := rank_candidates _match_results diversity_weight now
        let _stored := store_match_results job_id _ranked_results.ranked_candidates
          db.match_results
        -- `audit_logger.log_matching_event('match_completed', ..., details={...,
        -- 'processing_time': processing_time})`: `processing_time` is a local
        -- assigned only on the next line, so the lookup raises.
        .errorResp job_id (.unboundLocal "processing_time")

/-! ### Claim theorems -/

/-- Helper: a list of all-exactly-classified required skills produces no
partial/related/missing entries. -/
theorem requiredSkillLists_all_exact (res : List String) :
    ∀ req : List String, (∀ s ∈ req, classifyRequired s res = .exact) →
      requiredSkillLists req res = (req, [], [], []) := by
  intro req
  induction req with
  | nil => intro _; rfl
  | cons a rest ih =>
    intro h
    have ha := h a (by simp)
    have hrest := ih (fun s hs => h s (by simp [hs]))
    simp [requiredSkillLists, hrest, ha]

/-- C2 (amended): whenever the job's `required_experience_years` is 0,
`_calculate_experience_score` returns 1.0 — regardless of the
candidate's recorded experience, including zero. -/
theorem C2_no_requirement_scores_one (resume_data : ResumeData) (job : JobRequirements)
    (h : job.required_experience_years = 0) :
    (calculate_experience_score resume_data job).1 = 1 := by
  simp [calculate_experience_score, h]

/-- C2 witness: at a profile with zero recorded experience and a job with
no experience requirement, the experience score is 1.0. -/
theorem C2_no_requirement_scores_one_witness :
    ({} : JobRequirements).required_experience_years = 0 ∧
      (calculate_experience_score {} {}).1 = 1 :=
  ⟨rfl, C2_no_requirement_scores_one {} {} rfl⟩

/-- C2 counterexample: with `experience_years = 0` and
`required_experience_years = 0`, `_calculate_experience_score` returns
1.0 — neither the claimed 0 nor the claimed 0.5. -/
theorem C2_zero_zero_not_half :
    (calculate_experience_score {experience := {total_experience_years := 0}}
        {required_experience_years := 0}).1 ≠ 0 ∧
      (calculate_experience_score {experience := {total_experience_years := 0}}
        {required_experience_years := 0}).1 ≠ 1/2 := by
  repeat' constructor <;> norm_num [calculate_experience_score]

/-- The scenario profile of C3: skills exactly python and fastapi. -/
def rdPy : ResumeData := {skills := {skills := ["python", "fastapi"]}}

/-- The scenario job of C3: required skills python and fastapi, no
preferred skills. -/
def jrPy : JobRequirements := {required_skills := ["python", "fastapi"]}

/-- C3 counterexample: at the spec's own scenario (profile skills
python/fastapi, required python/fastapi, no preferred), the skill score
is 0.7, not the claimed 1.0. -/
theorem C3_scenario_is_seven_tenths :
    (calculate_skill_score rdPy jrPy).1 = 7/10 ∧ (7/10 : ℚ) ≠ 1 := by
  constructor
  · have hmap : (jrPy.required_skills.map pyLower) = ["python", "fastapi"] := by decide
    have hmap2 : (rdPy.skills.skills.map pyLower) = ["python", "fastapi"] := by decide
    have hreq : requiredSkillLists ["python", "fastapi"] ["python", "fastapi"] =
        (["python", "fastapi"], [], [], []) := by decide
    have hpref : jrPy.preferred_skills = [] := rfl
    simp only [calculate_skill_score, hmap, hmap2, hreq, hpref]
    norm_num [missingPreferred]
  · norm_num

/-- C3 (amended): when every required skill is classified as an exact
match of the resume skills and no preferred skills are given, the skill
score is `0.7` (the required part is weighted by 0.7; there is no
all-required perfect-match path to 1.0). -/
theorem C3_all_exact_required_score (resume_data : ResumeData) (job : JobRequirements)
    (hne : job.required_skills ≠ [])
    (hpref : job.preferred_skills = [])
    (hall : ∀ s ∈ job.required_skills.map pyLower,
      classifyRequired s (resume_data.skills.skills.map pyLower) = .exact) :
    (calculate_skill_score resume_data job).1 = 7/10 := by
  obtain ⟨a, l, hL⟩ : ∃ a l, job.required_skills.map pyLower = a :: l := by
    cases hq : job.required_skills.map pyLower with
    | nil => exact absurd (List.map_eq_nil_iff.mp hq) hne
    | cons a l => exact ⟨a, l, rfl⟩
  have hreq := requiredSkillLists_all_exact (resume_data.skills.skills.map pyLower)
    (job.required_skills.map pyLower) hall
  rw [hL] at hreq
  simp only [calculate_skill_score, hpref, hL, hreq, List.map_nil]
  have hn : ((l.length : ℚ) + 1) ≠ 0 := by positivity
  norm_num [List.length_cons]
  rw [div_self hn, one_mul]
  norm_num [min_def]

/-- C3 witness: the amended statement applied to the spec's scenario. -/
theorem C3_all_exact_required_score_witness :
    jrPy.required_skills ≠ [] ∧ jrPy.preferred_skills = [] ∧
      (calculate_skill_score rdPy jrPy).1 = 7/10 :=
  ⟨by decide, rfl, C3_all_exact_required_score rdPy jrPy (by decide) rfl (by decide)⟩

/-- C10 counterexample: a profile whose experience description repeats
the contact email.  `anonymize_resume` copies position descriptions
verbatim, so the output still contains the original email substring. -/
def profC10 : ResumeData :=
  { contact_info := some {email := some "john.doe@example.com", phone := some "555-0001"}
    experience := {experiences := [{description := "Reach me at john.doe@example.com"}]} }

/-- C10 counterexample: the anonymized profile's experience description
is unchanged and still contains the original email address. -/
theorem C10_email_survives_in_description :
    ((anonymize_resume profC10).experience.experiences.map (·.description)) =
      ["Reach me at john.doe@example.com"] ∧
    isSubS "john.doe@example.com" "Reach me at john.doe@example.com" = true := by
  constructor
  · rfl
  · decide

/-- C10 (amended): `anonymize_resume` deterministically replaces the
contact record with fixed placeholders, but copies each experience's
`description` text verbatim — only `raw_text` and `achievements` go
through `_anonymize_text` — so free text outside those fields can retain
the original email/phone substrings. -/
theorem C10_contact_replaced_descriptions_kept (resume_data : ResumeData) :
    (anonymize_resume resume_data).contact_info =
      resume_data.contact_info.map (fun _ => placeholderContact) ∧
    (anonymize_resume resume_data).experience.experiences.map (·.description) =
      resume_data.experience.experiences.map (·.description) := by
  constructor
  · cases h : resume_data.contact_info <;> simp [anonymize_resume, h]
  · simp [anonymize_resume, List.map_map, Function.comp]

/-- Helper: the post-validation body only reports `weights_used` equal to
the weights it was given. -/
theorem calcRest_weightsUsed (rd : ResumeData) (jr : JobRequirements) (w wu : Weights)
    (h : (calculate_match_score.calcRest rd jr w).weightsUsed = some wu) : wu = w := by
  unfold calculate_match_score.calcRest at h
  split at h
  · simp [MatchScoreResult.weightsUsed] at h
  · simp only [MatchScoreResult.weightsUsed, Option.some.injEq] at h
    exact h.symm

/-- C9 (amended): the weights actually used by `calculate_match_score`
sum to 1.0 within a tolerance of `0.01` — renormalization (which makes
the sum exactly 1) only happens when the supplied sum deviates by more
than `0.01`; otherwise the supplied weights are used as-is. -/
theorem C9_weights_within_hundredth (rd : ResumeData) (jr : JobRequirements)
    (w wu : Weights)
    (h : (calculate_match_score rd jr (some w)).weightsUsed = some wu) :
    |wu.total - 1| ≤ 1/100 := by
  unfold calculate_match_score at h
  simp only [Option.getD_some] at h
  split at h
  · rename_i hbig
    split at h
    · simp [MatchScoreResult.weightsUsed] at h
    · rename_i hnz
      have := calcRest_weightsUsed _ _ _ _ h
      subst this
      have ht : w.total ≠ 0 := hnz
      simp only [Weights.total]
      rw [div_add_div_same, div_add_div_same,
        div_self (by simpa [Weights.total] using ht)]
      norm_num
  · rename_i hsmall
    have := calcRest_weightsUsed _ _ _ _ h
    subst this
    linarith [not_lt.mp hsmall]

/-- Off-by-half-a-percent weights used in the C9 counterexample. -/
def wOff : Weights := {skills := 1/2, experience := 3/10, education := 41/200}

/-- C9 counterexample: weights summing to 1.005 are used unchanged (the
0.01 tolerance does not trigger renormalization), so the weights used do
not sum to 1.0 within 1e-6. -/
theorem C9_tolerance_counterexample :
    (calculate_match_score {} {} (some wOff)).weightsUsed = some wOff ∧
      ¬(|wOff.total - 1| ≤ 1/1000000) := by
  constructor
  · have hb : ¬((1:ℚ)/100 < |wOff.total - 1|) := by
      have : (wOff.total - 1 : ℚ) = 1/200 := by norm_num [wOff, Weights.total]
      rw [this, abs_of_pos (by norm_num)]
      norm_num
    have hm : check_mandatory_requirements {} {} = 1 := by
      simp [check_mandatory_requirements]
    unfold calculate_match_score
    simp only [Option.getD_some, if_neg hb]
    unfold calculate_match_score.calcRest
    rw [if_neg (by rw [hm]; norm_num)]
    rfl
  · have : (wOff.total - 1 : ℚ) = 1/200 := by norm_num [wOff, Weights.total]
    rw [not_le, this, abs_of_pos (by norm_num)]
    norm_num

/-- C9 witness: the amended bound applied to the default weights. -/
theorem C9_weights_within_hundredth_witness :
    (calculate_match_score {} {} (some default_weights)).weightsUsed =
        some default_weights ∧
      |default_weights.total - 1| ≤ 1/100 := by
  have hused : (calculate_match_score {} {} (some default_weights)).weightsUsed =
      some default_weights := by
    have hb : ¬((1:ℚ)/100 < |default_weights.total - 1|) := by
      norm_num [default_weights, Weights.total, abs_sub_le_iff]
    have hm : check_mandatory_requirements {} {} = 1 := by
      simp [check_mandatory_requirements]
    unfold calculate_match_score
    simp only [Option.getD_some, if_neg hb]
    unfold calculate_match_score.calcRest
    rw [if_neg (by rw [hm]; norm_num)]
    rfl
  exact ⟨hused, C9_weights_within_hundredth {} {} default_weights default_weights hused⟩

/-- C6 (amended): with a cold cache, every entry `_standard_matching`
returns comes from a candidate whose resume data passed the mandatory
gate — candidates with failed extraction or unmet mandatory requirements
are silently dropped, not surfaced as zero-scored entries. -/
theorem C6_all_entries_pass_mandatory (db : OrchDb) (job : OrchJob)
    (cs : List OrchCandidate) (jr : JobRequirements) (w : Option Weights) :
    (standard_matching db job cs jr w emptyCache).all
      (fun e => (calculate_match_score e.resume_data jr w).mandatoryMet) = true := by
  have all_flatMap : ∀ {α β : Type} (f : α → List β) (P : β → Bool) (l : List α),
      (∀ a, (f a).all P = true) → (l.flatMap f).all P = true := by
    intro α β f P l h
    induction l with
    | nil => rfl
    | cons a rest ih => simp [List.flatMap_cons, List.all_append, h a, ih]
  unfold standard_matching
  refine all_flatMap _ _ cs (fun c => ?_)
  cases hr : db.resumes.find? (fun r => r.id = c.resume_id) with
  | none => simp
  | some resume =>
    cases hp : resume.parsed_data_json with
    | none => simp [hp]
    | some resume_data =>
      cases hcal : calculate_match_score resume_data jr w with
      | ok o sk ex ed skb exb edb wu expl =>
        simp [hp, emptyCache, hcal, MatchScoreResult.mandatoryMet]
      | mandatoryFailed => simp [hp, emptyCache, hcal]
      | scoringError => simp [hp, emptyCache, hcal]

/-- The C6 counterexample database: one resume with no parsed payload
(failed extraction), one parsed resume lacking the mandatory skill. -/
def dbC6 : OrchDb :=
  { resumes :=
      [{id := "r1", parsed_data_json := none, status := "processed"},
       {id := "r2", parsed_data_json := some {skills := {skills := ["python"]}},
        status := "processed"}] }

/-- The C6 candidates: one per resume. -/
def candsC6 : List OrchCandidate :=
  [{id := "c1", anonymized_id := "A1", resume_id := "r1"},
   {id := "c2", anonymized_id := "A2", resume_id := "r2"}]

/-- The C6 job requirements: mandatory skill `java`. -/
def jreqC6 : JobRequirements := {mandatory_requirements := some {skills := ["java"]}}

/-- C6 counterexample: the failed-extraction candidate and the
mandatory-failing candidate both vanish from the match results — no
zero-scored or `low_confidence` entry exists (the result has no such
field at all). -/
theorem C6_candidates_vanish :
    standard_matching dbC6 {id := "j1"} candsC6 jreqC6 none emptyCache = [] := by
  have hmand : check_mandatory_requirements {skills := {skills := ["python"]}} jreqC6 = 0 := by
    have hs : (["java"].any (fun req =>
        !(((({skills := {skills := ["python"]}} : ResumeData).skills.skills.map
          pyLower)).contains (pyLower req)))) = true := by decide
    simp only [check_mandatory_requirements, jreqC6]
    rw [if_pos hs]
  have hcal : calculate_match_score {skills := {skills := ["python"]}} jreqC6 none =
      .mandatoryFailed := by
    have hb : ¬((1:ℚ)/100 < |default_weights.total - 1|) := by
      norm_num [default_weights, Weights.total]
    unfold calculate_match_score
    simp only [Option.getD_none, if_neg hb]
    unfold calculate_match_score.calcRest
    rw [if_pos hmand]
  have h1 : dbC6.resumes.find? (fun r => r.id = ("r1" : String)) =
      some {id := "r1", parsed_data_json := none, status := "processed"} := by
    simp [dbC6, List.find?]
  simp [standard_matching, candsC6, dbC6, emptyCache, hcal, List.find?]

/-- C7 (code_bug): every `match_job_to_candidates` run on an existing job
with at least one selected candidate (standard strategy, any weights,
any cache state) returns the exception-handler dictionary — the
audit-log call reads the local `processing_time` before its assignment,
raising `UnboundLocalError` — instead of the ranked-results dictionary. -/
theorem C7_standard_run_always_errors (db : OrchDb) (job_id : String)
    (ids : Option (List String)) (w : Option Weights) (dw : ℚ) (bias : Bool)
    (cache : ScoreCache) (now : Int) (job : OrchJob)
    (hfind : db.jobs.find? (fun j => j.id = job_id) = some job)
    (hne : selectCandidates db ids ≠ []) :
    match_job_to_candidates db job_id ids "standard" w dw bias cache now =
      .errorResp job_id (.unboundLocal "processing_time") := by
  have hempty : (selectCandidates db ids).isEmpty = false := by
    simpa [List.isEmpty_iff] using hne
  have hmem : (["standard", "fast", "comprehensive"] : List String).contains "standard" =
      true := by decide
  simp [match_job_to_candidates, hfind, hempty, hmem]

/-- The C7 witness database: a job and one candidate with a processed,
parsed resume. -/
def dbC7 : OrchDb :=
  { jobs := [{id := "j1", title := "Engineer", description := "desc"}]
    resumes := [{id := "r1", parsed_data_json := some {}, status := "processed"}]
    candidates := [{id := "c1", anonymized_id := "A1", resume_id := "r1"}] }

/-- C7 witness: the bug theorem applied to the concrete database. -/
theorem C7_standard_run_always_errors_witness :
    dbC7.jobs.find? (fun j => j.id = ("j1" : String)) =
        some {id := "j1", title := "Engineer", description := "desc"} ∧
      selectCandidates dbC7 none ≠ [] ∧
      match_job_to_candidates dbC7 "j1" none "standard" none 0 true emptyCache 0 =
        .errorResp "j1" (.unboundLocal "processing_time") := by
  refine ⟨by simp [dbC7, List.find?], ?_, ?_⟩
  · simp [selectCandidates, dbC7]
  · exact C7_standard_run_always_errors dbC7 "j1" none none 0 true emptyCache 0
      {id := "j1", title := "Engineer", description := "desc"}
      (by simp [dbC7, List.find?]) (by simp [selectCandidates, dbC7])

/-- Helper: the skill component always lies in `[0, 1]`. -/
theorem calculate_skill_score_range (rd : ResumeData) (jr : JobRequirements) :
    0 ≤ (calculate_skill_score rd jr).1 ∧ (calculate_skill_score rd jr).1 ≤ 1 := by
  rcases hts : requiredSkillLists (jr.required_skills.map pyLower)
    (rd.skills.skills.map pyLower) with ⟨ex, pa, rel, mi⟩
  have hmiss : (missingPreferred (jr.preferred_skills.map pyLower)
      (jr.required_skills.map pyLower) (rd.skills.skills.map pyLower)).length ≤
      (jr.preferred_skills.map pyLower).length := List.length_filter_le _ _
  simp only [calculate_skill_score, hts]
  split
  · norm_num
  · refine ⟨le_min ?_ (by norm_num), min_le_right _ _⟩
    have hrs : (0 : ℚ) ≤
        (if 0 < (jr.required_skills.map pyLower).length then
          ((ex.length : ℚ) * 1 + (pa.length : ℚ) * (7/10) + (rel.length : ℚ) * (3/10)) /
            ((jr.required_skills.map pyLower).length : ℚ)
        else 0) := by
      split
      · positivity
      · norm_num
    have hps : (0 : ℚ) ≤
        (if 0 < (jr.preferred_skills.map pyLower).length then
          (((jr.preferred_skills.map pyLower).length : ℚ) -
            ((missingPreferred (jr.preferred_skills.map pyLower)
              (jr.required_skills.map pyLower) (rd.skills.skills.map pyLower)).length : ℚ)) /
            ((jr.preferred_skills.map pyLower).length : ℚ) * (5/10)
        else 0) := by
      split
      · have : ((missingPreferred (jr.preferred_skills.map pyLower)
            (jr.required_skills.map pyLower) (rd.skills.skills.map pyLower)).length : ℚ) ≤
            ((jr.preferred_skills.map pyLower).length : ℚ) := by exact_mod_cast hmiss
        have h0 : (0 : ℚ) ≤ ((jr.preferred_skills.map pyLower).length : ℚ) := by positivity
        apply mul_nonneg (div_nonneg (by linarith) h0)
        norm_num
      · norm_num
    split
    · rename_i hpos
      rw [if_pos hpos] at hrs
      have ha := mul_nonneg hrs (by norm_num : (0:ℚ) ≤ 7/10)
      have hb := mul_nonneg hps (by norm_num : (0:ℚ) ≤ 3/10)
      linarith
    · exact hps

/-- Helper: the experience component always lies in `[0, 1]`. -/
theorem calculate_experience_score_range (rd : ResumeData) (jr : JobRequirements) :
    0 ≤ (calculate_experience_score rd jr).1 ∧
      (calculate_experience_score rd jr).1 ≤ 1 := by
  simp only [calculate_experience_score]
  split
  · norm_num
  · refine ⟨le_min ?_ (by norm_num), min_le_right _ _⟩
    split
    · exact le_trans (by norm_num) (le_max_right _ _)
    · split
      · rename_i hnp hr
        have hlt : rd.experience.total_experience_years <
            jr.preferred_experience_years.getD jr.required_experience_years :=
          lt_of_not_le hnp
        have hge : jr.required_experience_years ≤ rd.experience.total_experience_years := hr
        have hd : (0 : ℚ) <
            jr.preferred_experience_years.getD jr.required_experience_years -
              jr.required_experience_years := by linarith
        have hq : (0 : ℚ) ≤
            (rd.experience.total_experience_years - jr.required_experience_years) /
              (jr.preferred_experience_years.getD jr.required_experience_years -
                jr.required_experience_years) := by
          apply div_nonneg (by linarith) (le_of_lt hd)
        nlinarith
      · exact le_max_left _ _

/-- Helper: the institution tier score dictionary stays in `[0, 1]`. -/
theorem tier_scores_range (t : String) : 0 ≤ tier_scores t ∧ tier_scores t ≤ 1 := by
  unfold tier_scores
  cases h : [("tier1", (1 : ℚ)), ("tier2", 8/10), ("tier3", 6/10), ("preferred", 1)].find?
      (fun p => p.1 = t) with
  | none => norm_num
  | some p =>
    have hp := List.mem_of_find?_eq_some h
    simp only [List.mem_cons, List.not_mem_nil, or_false] at hp
    rcases hp with h1 | h1 | h1 | h1 <;> subst h1 <;> norm_num

/-- Helper: the education component always lies in `[0, 1]`. -/
theorem calculate_education_score_range (rd : ResumeData) (jr : JobRequirements) :
    0 ≤ (calculate_education_score rd jr).1 ∧
      (calculate_education_score rd jr).1 ≤ 1 := by
  have blend : ∀ {a b : ℚ}, (0 ≤ a ∧ a ≤ 1) → (0 ≤ b ∧ b ≤ 1) →
      0 ≤ a * (7/10) + b * (3/10) ∧ a * (7/10) + b * (3/10) ≤ 1 := by
    intro a b ha hb
    constructor <;> nlinarith [ha.1, ha.2, hb.1, hb.2]
  simp only [calculate_education_score]
  split
  · norm_num
  · refine blend ?_ ?_
    · cases h : jr.required_degree with
      | none => norm_num
      | some d =>
        constructor <;> (repeat' split) <;> norm_num
    · split
      · cases hb : bestInstitution rd.education.educations jr with
        | none => norm_num
        | some b => exact tier_scores_range b.2
      · norm_num

/-- Helper: round-half-even of a nonnegative rational is nonnegative. -/
theorem roundHalfEven_nonneg (q : ℚ) (h : 0 ≤ q) : 0 ≤ roundHalfEven q := by
  have hf : (0 : ℤ) ≤ ⌊q⌋ := Int.floor_nonneg.mpr h
  simp only [roundHalfEven]
  split_ifs <;> omega

/-- Helper: round-half-even exceeds its argument by at most one. -/
theorem roundHalfEven_le (q : ℚ) : (roundHalfEven q : ℚ) ≤ q + 1 := by
  have hf : (⌊q⌋ : ℚ) ≤ q := Int.floor_le q
  simp only [roundHalfEven]
  split_ifs <;> push_cast <;> linarith

/-- Helper: `round(q, 2)` of a value in `[0, b]` stays in
`[0, b + 1/100]`. -/
theorem pyRound2_range (q b : ℚ) (h0 : 0 ≤ q) (hb : q ≤ b) :
    0 ≤ pyRound 2 q ∧ pyRound 2 q ≤ b + 1/100 := by
  unfold pyRound
  constructor
  · have := roundHalfEven_nonneg (q * 10 ^ 2) (by positivity)
    positivity
  · have h1 : (roundHalfEven (q * 10 ^ 2) : ℚ) ≤ q * 10 ^ 2 + 1 := roundHalfEven_le _
    rw [div_le_iff₀ (by norm_num : (0:ℚ) < 10 ^ 2)]
    norm_num at h1 ⊢
    linarith

/-- Helper: the range-and-formula facts for the post-validation body of
`calculate_match_score`, assuming nonnegative weights with a sum of at
most `1.01`. -/
theorem calcRest_range (rd : ResumeData) (jr : JobRequirements) (w : Weights)
    (h1 : 0 ≤ w.skills) (h2 : 0 ≤ w.experience) (h3 : 0 ≤ w.education)
    (ht : w.total ≤ 101/100) :
    (0 ≤ (calculate_match_score.calcRest rd jr w).overall ∧
      (calculate_match_score.calcRest rd jr w).overall ≤ 100) ∧
    (∀ o sk ex ed skb exb edb wu expl,
      calculate_match_score.calcRest rd jr w = .ok o sk ex ed skb exb edb wu expl →
      o = pyRound 2 ((calculate_skill_score rd jr).1 * wu.skills +
        (calculate_experience_score rd jr).1 * wu.experience +
        (calculate_education_score rd jr).1 * wu.education)) := by
  rcases hsk : calculate_skill_score rd jr with ⟨s, sb⟩
  rcases hex : calculate_experience_score rd jr with ⟨e, eb⟩
  rcases hed : calculate_education_score rd jr with ⟨d, db⟩
  have hsr := calculate_skill_score_range rd jr
  have her := calculate_experience_score_range rd jr
  have hdr := calculate_education_score_range rd jr
  rw [hsk] at hsr
  rw [hex] at her
  rw [hed] at hdr
  simp only at hsr her hdr
  have hsum0 : 0 ≤ s * w.skills + e * w.experience + d * w.education := by
    have := mul_nonneg hsr.1 h1
    have := mul_nonneg her.1 h2
    have := mul_nonneg hdr.1 h3
    linarith
  have hsum1 : s * w.skills + e * w.experience + d * w.education ≤ 101/100 := by
    have hs' : s * w.skills ≤ w.skills := by nlinarith [hsr.1, hsr.2]
    have he' : e * w.experience ≤ w.experience := by nlinarith [her.1, her.2]
    have hd' : d * w.education ≤ w.education := by nlinarith [hdr.1, hdr.2]
    have := ht
    simp only [Weights.total] at this
    linarith
  have hround := pyRound2_range (s * w.skills + e * w.experience + d * w.education)
    (101/100) hsum0 hsum1
  unfold calculate_match_score.calcRest
  split
  · exact ⟨by norm_num [MatchScoreResult.overall], by intro o sk ex' ed' skb exb edb wu expl h; cases h⟩
  · simp only [hsk, hex, hed]
    constructor
    · constructor
      · simpa [MatchScoreResult.overall] using hround.1
      · simp only [MatchScoreResult.overall]
        linarith [hround.2]
    · intro o sk ex' ed' skb exb edb wu expl h
      injection h with h_o h_sk h_ex h_ed h_skb h_exb h_edb h_wu h_expl
      subst h_wu
      exact h_o.symm

/-- C1 (amended): with nonnegative weights, `calculate_match_score`
always returns an overall score in `[0, 100]`; on the success path the
overall score equals the weighted sum of the three component scores
rounded to two decimals on the 0–1 scale — there is no `×100` scaling
and no clamping step. -/
theorem C1_overall_range_and_formula (rd : ResumeData) (jr : JobRequirements)
    (w : Option Weights)
    (h1 : 0 ≤ (w.getD default_weights).skills)
    (h2 : 0 ≤ (w.getD default_weights).experience)
    (h3 : 0 ≤ (w.getD default_weights).education) :
    (0 ≤ (calculate_match_score rd jr w).overall ∧
      (calculate_match_score rd jr w).overall ≤ 100) ∧
    (∀ o sk ex ed skb exb edb wu expl,
      calculate_match_score rd jr w = .ok o sk ex ed skb exb edb wu expl →
      o = pyRound 2 ((calculate_skill_score rd jr).1 * wu.skills +
        (calculate_experience_score rd jr).1 * wu.experience +
        (calculate_education_score rd jr).1 * wu.education)) := by
  simp only [calculate_match_score]
  split
  · split
    · exact ⟨⟨by norm_num [MatchScoreResult.overall], by norm_num [MatchScoreResult.overall]⟩,
        by intro o sk ex ed skb exb edb wu expl h; cases h⟩
    · rename_i hnz
      have htpos : 0 < (w.getD default_weights).total := by
        rcases lt_or_eq_of_le (by simp only [Weights.total]; linarith :
          (0:ℚ) ≤ (w.getD default_weights).total) with h | h
        · exact h
        · exact absurd h.symm hnz
      have hr := calcRest_range rd jr
        {skills := (w.getD default_weights).skills / (w.getD default_weights).total,
         experience := (w.getD default_weights).experience / (w.getD default_weights).total,
         education := (w.getD default_weights).education / (w.getD default_weights).total}
        (div_nonneg h1 (le_of_lt htpos)) (div_nonneg h2 (le_of_lt htpos))
        (div_nonneg h3 (le_of_lt htpos))
        (by
          simp only [Weights.total]
          rw [div_add_div_same, div_add_div_same,
            show (w.getD default_weights).skills + (w.getD default_weights).experience +
              (w.getD default_weights).education = (w.getD default_weights).total from rfl,
            div_self (ne_of_gt htpos)]
          norm_num)
      exact hr
  · rename_i hsmall
    have hb : (w.getD default_weights).total ≤ 101/100 := by
      have := not_lt.mp hsmall
      have habs := abs_le.mp this
      linarith [habs.2]
    exact calcRest_range rd jr (w.getD default_weights) h1 h2 h3 hb

/-- C1 witness: the range-and-formula statement at the default weights
on a concrete resume/job pair. -/
theorem C1_overall_range_and_formula_witness :
    0 ≤ ((none : Option Weights).getD default_weights).skills ∧
      0 ≤ (calculate_match_score {} {} none).overall ∧
      (calculate_match_score {} {} none).overall ≤ 100 :=
  ⟨by norm_num [default_weights],
   (C1_overall_range_and_formula {} {} none (by norm_num [default_weights])
     (by norm_num [default_weights]) (by norm_num [default_weights])).1.1,
   (C1_overall_range_and_formula {} {} none (by norm_num [default_weights])
     (by norm_num [default_weights]) (by norm_num [default_weights])).1.2⟩

/-- The C1 counterexample profile: one matching skill. -/
def rdC1 : ResumeData := {skills := {skills := ["python"]}}

/-- The C1 counterexample job: one required skill. -/
def jrC1 : JobRequirements := {required_skills := ["python"]}

/-- C1 counterexample: with mandatory requirements met, the returned
overall score is `0.65` (the weighted sum itself, rounded), which is not
the claimed clamped hundredfold `min(100, max(0, 0.65 × 100)) = 65`. -/
theorem C1_no_100_scaling :
    (calculate_match_score rdC1 jrC1 none).overall = 65/100 ∧
      (65/100 : ℚ) ≠ min 100 (max 0 ((65/100) * 100)) := by
  constructor
  · rcases hsk : calculate_skill_score rdC1 jrC1 with ⟨s, sb⟩
    rcases hex : calculate_experience_score rdC1 jrC1 with ⟨e, eb⟩
    rcases hed : calculate_education_score rdC1 jrC1 with ⟨d, db⟩
    have hs : s = 7/10 := by
      have h1 : (calculate_skill_score rdC1 jrC1).1 = 7/10 := by
        have hmap : (jrC1.required_skills.map pyLower) = ["python"] := by decide
        have hmap2 : (rdC1.skills.skills.map pyLower) = ["python"] := by decide
        have hreq : requiredSkillLists ["python"] ["python"] = (["python"], [], [], []) := by
          decide
        have hpref : jrC1.preferred_skills = [] := rfl
        simp only [calculate_skill_score, hmap, hmap2, hreq, hpref]
        norm_num [missingPreferred, min_def]
      rw [hsk] at h1
      exact h1
    have he : e = 1 := by
      have h1 : (calculate_experience_score rdC1 jrC1).1 = 1 := by
        norm_num [calculate_experience_score, rdC1, jrC1]
      rw [hex] at h1
      exact h1
    have hd : d = 0 := by
      have h1 : (calculate_education_score rdC1 jrC1).1 = 0 := by
        norm_num [calculate_education_score, rdC1, jrC1]
      rw [hed] at h1
      exact h1
    subst hs
    subst he
    subst hd
    have hmand : check_mandatory_requirements rdC1 jrC1 = 1 := by
      simp [check_mandatory_requirements, rdC1, jrC1]
    have hb : ¬((1:ℚ)/100 < |default_weights.total - 1|) := by
      norm_num [default_weights, Weights.total]
    simp only [calculate_match_score, Option.getD_none, if_neg hb]
    unfold calculate_match_score.calcRest
    rw [if_neg (by rw [hmand]; norm_num)]
    simp only [hsk, hex, hed, MatchScoreResult.overall]
    rw [show ((7:ℚ)/10 * default_weights.skills + 1 * default_weights.experience +
      0 * default_weights.education) = 13/20 by norm_num [default_weights]]
    norm_num [pyRound, roundHalfEven]
  · rw [max_eq_right (by norm_num : (0:ℚ) ≤ 65/100 * 100),
      min_eq_right (by norm_num : (65:ℚ)/100 * 100 ≤ 100)]
    norm_num

/-- Helper: truth characterization of one lexicographic comparison step. -/
theorem lexStep_iff {α : Type} [LinearOrder α] {x y : α} {n : Bool} :
    ((if x < y then true else if y < x then false else n) = true) ↔
      (x < y ∨ (x = y ∧ n = true)) := by
  split_ifs with h1 h2
  · simp [h1]
  · simp only [Bool.false_eq_true, false_iff]
    rintro (h | ⟨he, -⟩)
    · exact lt_asymm h2 h
    · subst he
      exact lt_irrefl _ h2
  · have hxy : x = y := le_antisymm (not_lt.mp h2) (not_lt.mp h1)
    simp [h1, hxy]

/-- Helper: transitivity of a lexicographic comparison step. -/
theorem lexStep_trans {α : Type} [LinearOrder α] {x y z : α} {a b c : Bool}
    (hab : a = true → b = true → c = true)
    (h1 : (if x < y then true else if y < x then false else a) = true)
    (h2 : (if y < z then true else if z < y then false else b) = true) :
    (if x < z then true else if z < x then false else c) = true := by
  rw [lexStep_iff] at h1 h2 ⊢
  rcases h1 with h1 | ⟨he1, ha⟩
  · rcases h2 with h2 | ⟨he2, hb⟩
    · exact Or.inl (lt_trans h1 h2)
    · exact Or.inl (he2 ▸ h1)
  · rcases h2 with h2 | ⟨he2, hb⟩
    · exact Or.inl (he1 ▸ h2)
    · exact Or.inr ⟨he1.trans he2, hab ha hb⟩

/-- Helper: totality of a lexicographic comparison step. -/
theorem lexStep_total {α : Type} [LinearOrder α] {x y : α} {a b : Bool}
    (hab : (a || b) = true) :
    ((if x < y then true else if y < x then false else a) ||
      (if y < x then true else if x < y then false else b)) = true := by
  rcases lt_trichotomy x y with h | h | h
  · simp [lexStep_iff, h]
  · subst h
    simp only [lt_irrefl, if_false]
    exact hab
  · simp [lexStep_iff, h]

/-- Helper: the 4-tuple key comparison is transitive. -/
theorem lex4Le_trans {p q r : ℚ × ℚ × Int × ℚ}
    (h1 : lex4Le p q = true) (h2 : lex4Le q r = true) : lex4Le p r = true := by
  unfold lex4Le at h1 h2 ⊢
  refine lexStep_trans (fun ha hb => ?_) h1 h2
  refine lexStep_trans (fun ha' hb' => ?_) ha hb
  refine lexStep_trans (fun ha'' hb'' => ?_) ha' hb'
  simp only [decide_eq_true_eq] at ha'' hb'' ⊢
  exact le_trans ha'' hb''

/-- Helper: the 4-tuple key comparison is total. -/
theorem lex4Le_total (p q : ℚ × ℚ × Int × ℚ) :
    (lex4Le p q || lex4Le q p) = true := by
  unfold lex4Le
  refine lexStep_total (lexStep_total (lexStep_total ?_))
  simp [le_total]

/-- Helper: the candidate sort comparison is transitive. -/
theorem rankLE_trans (now : Int) {a b c : RankCandidate}
    (h1 : rankLE now a b = true) (h2 : rankLE now b c = true) :
    rankLE now a c = true :=
  lex4Le_trans h1 h2

/-- Helper: the candidate sort comparison is total. -/
theorem rankLE_total (now : Int) (a b : RankCandidate) :
    (rankLE now a b || rankLE now b a) = true :=
  lex4Le_total _ _

/-- Helper: the sort comparison's first key component is the negated
overall score, so it implies a non-increasing overall score. -/
theorem rankLE_overall {now : Int} {a b : RankCandidate}
    (h : rankLE now a b = true) : b.overall_score ≤ a.overall_score := by
  unfold rankLE lex4Le sortKey at h
  rw [lexStep_iff] at h
  rcases h with h | ⟨he, -⟩
  · simp only at h
    linarith
  · simp only at he
    linarith [neg_injective he]

/-- Helper: `assignRanks` keeps the list length. -/
theorem assignRanks_length (t : Nat) :
    ∀ (n : Nat) (l : List RankCandidate), (assignRanks t n l).length = l.length := by
  intro n l
  induction l generalizing n with
  | nil => rfl
  | cons c rest ih => simp [assignRanks, ih]

/-- Helper: the ranks assigned by `assignRanks` are consecutive from its
starting counter. -/
theorem assignRanks_map_rank (t : Nat) :
    ∀ (n : Nat) (l : List RankCandidate),
      (assignRanks t n l).map (·.rank) = (List.range' n l.length).map some := by
  intro n l
  induction l generalizing n with
  | nil => rfl
  | cons c rest ih =>
    simp only [assignRanks, List.map_cons, List.length_cons, List.range'_succ, ih]

/-- Helper: mapping a field unaffected by rank assignment commutes with
`assignRanks`. -/
theorem assignRanks_map_pair (t : Nat) :
    ∀ (n : Nat) (l : List RankCandidate),
      (assignRanks t n l).map (fun c => (c.candidate_id, c.overall_score)) =
        l.map (fun c => (c.candidate_id, c.overall_score)) := by
  intro n l
  induction l generalizing n with
  | nil => rfl
  | cons c rest ih => simp [assignRanks, ih]

/-- Helper: every element of `assignRanks` is a rank-updated element of
the input. -/
theorem mem_assignRanks (t : Nat) :
    ∀ {n : Nat} {l : List RankCandidate} {b : RankCandidate}, b ∈ assignRanks t n l →
      ∃ d ∈ l, ∃ k, b =
        {d with rank := some k,
                ranking_expl := some (generate_ranking_explanation d k t)} := by
  intro n l
  induction l generalizing n with
  | nil => intro b h; cases h
  | cons c rest ih =>
    intro b h
    rcases List.mem_cons.mp h with h | h
    · exact ⟨c, by simp, n, h⟩
    · obtain ⟨d, hd, k, hk⟩ := ih h
      exact ⟨d, by simp [hd], k, hk⟩

/-- Helper: the sort comparison ignores the mutated rank/explanation
fields. -/
theorem rankLE_update (now : Int) (c d : RankCandidate) (m k : Nat) (t : Nat) :
    rankLE now
      {c with rank := some m, ranking_expl := some (generate_ranking_explanation c m t)}
      {d with rank := some k, ranking_expl := some (generate_ranking_explanation d k t)} =
      rankLE now c d := rfl

/-- Helper: sortedness survives rank assignment. -/
theorem assignRanks_pairwise (now : Int) (t : Nat) :
    ∀ (n : Nat) (l : List RankCandidate),
      l.Pairwise (fun a b => rankLE now a b = true) →
      (assignRanks t n l).Pairwise (fun a b => rankLE now a b = true) := by
  intro n l
  induction l generalizing n with
  | nil => intro _; exact List.Pairwise.nil
  | cons c rest ih =>
    intro h
    rcases List.pairwise_cons.mp h with ⟨hc, hrest⟩
    refine List.pairwise_cons.mpr ⟨?_, ih (n + 1) hrest⟩
    intro b hb
    obtain ⟨d, hd, k, hk⟩ := mem_assignRanks t hb
    subst hk
    rw [rankLE_update]
    exact hc d hd

/-- C4: for every batch of scored candidates (any diversity weight and
reference time), `rank_candidates` assigns ranks exactly `1..N` in
order, the `overall_score` values are non-increasing along the output,
the output is sorted by the descending tuple key
`(overall_score, experience_years, education_level, recency_score)` of
`_sort_candidates` (with `_calculate_recency_score`'s current/decay/0.5
rules), and it is a permutation of the (diversity-adjusted) input
batch. -/
theorem C4_rank_invariants (candidates : List RankCandidate) (dw : ℚ) (now : Int) :
    ((rank_candidates candidates dw now).ranked_candidates.map (·.rank) =
      (List.range' 1 (rank_candidates candidates dw now).ranked_candidates.length).map some)
    ∧ List.Chain' (fun a b => b.overall_score ≤ a.overall_score)
        (rank_candidates candidates dw now).ranked_candidates
    ∧ List.Pairwise (fun a b => rankLE now a b = true)
        (rank_candidates candidates dw now).ranked_candidates
    ∧ ((rank_candidates candidates dw now).ranked_candidates.map
        (fun c => (c.candidate_id, c.overall_score))).Perm
        ((applyDiversity candidates dw).map (fun c => (c.candidate_id, c.overall_score))) := by
  have hsorted : (sort_candidates now (applyDiversity candidates dw)).Pairwise
      (fun a b => rankLE now a b = true) :=
    @List.sorted_mergeSort _ (rankLE now) (fun a b c => rankLE_trans now)
      (rankLE_total now) (applyDiversity candidates dw)
  have hperm : (sort_candidates now (applyDiversity candidates dw)).Perm
      (applyDiversity candidates dw) :=
    List.mergeSort_perm (applyDiversity candidates dw) (rankLE now)
  have hpair : (rank_candidates candidates dw now).ranked_candidates.Pairwise
      (fun a b => rankLE now a b = true) := by
    simp only [rank_candidates]
    exact assignRanks_pairwise now _ 1 _ hsorted
  refine ⟨?_, ?_, hpair, ?_⟩
  · simp only [rank_candidates]
    rw [assignRanks_map_rank, assignRanks_length]
  · exact List.Chain'.imp (fun a b h => rankLE_overall h) hpair.chain'
  · simp only [rank_candidates]
    rw [assignRanks_map_pair]
    exact hperm.map _

/-! ### C8: the three extraction methods of `extract_skills` -/

/-- `setAdd` keeps existing members. -/
lemma mem_setAdd_left {s : List String} {x : String} (y : String) (hx : x ∈ s) :
    x ∈ setAdd s y := by
  simp only [setAdd]
  split
  · exact hx
  · exact List.mem_append_left _ hx

/-- `setAdd` contains the inserted element. -/
lemma mem_setAdd_self (s : List String) (x : String) : x ∈ setAdd s x := by
  simp only [setAdd]
  split
  · next h => exact List.mem_of_elem_eq_true h
  · exact List.mem_append_right _ (List.mem_singleton.mpr rfl)

/-- The skills-section fold never loses a skill already in the set. -/
lemma sectionFold_mono (l : List String) : ∀ (st : SkillSt) (x : String), x ∈ st.1 →
    x ∈ (l.foldl (fun (st : SkillSt) skill =>
      match normalize_skill skill with
      | some normalized => (setAdd st.1 normalized, bumpMentions st.2 normalized 1)
      | none => st) st).1 := by
  induction l with
  | nil => intro st x hx; exact hx
  | cons a rest ih =>
      intro st x hx
      simp only [List.foldl_cons]
      apply ih
      cases h : normalize_skill a with
      | none => simpa [h] using hx
      | some n =>
          simp only [h]
          exact mem_setAdd_left n hx

/-- The skills-section fold adds the normalized form of every listed
skill. -/
lemma sectionFold_mem (l : List String) (s n : String) (hn : normalize_skill s = some n) :
    ∀ st : SkillSt, s ∈ l →
    n ∈ (l.foldl (fun (st : SkillSt) skill =>
      match normalize_skill skill with
      | some normalized => (setAdd st.1 normalized, bumpMentions st.2 normalized 1)
      | none => st) st).1 := by
  induction l with
  | nil => intro st hs; exact absurd hs (List.not_mem_nil s)
  | cons a rest ih =>
      intro st hs
      simp only [List.foldl_cons]
      rcases List.mem_cons.mp hs with rfl | hs'
      · apply sectionFold_mono
        simp only [hn]
        exact mem_setAdd_self _ n
      · exact ih _ hs'

/-- `addSectionSkills` puts the normalized form of every skills-section
entry into the skill set. -/
lemma addSectionSkills_mem (text : String) (s n : String)
    (hs : s ∈ extract_skills_section text) (hn : normalize_skill s = some n)
    (st0 : SkillSt) : n ∈ (addSectionSkills text st0).1 :=
  sectionFold_mem (extract_skills_section text) s n hn st0 hs

/-- Every member of the skill set survives into the flattened
categorized buckets. -/
lemma catFold_flat (l : List String) : ∀ (acc : List (String × List String)) (x : String),
    x ∈ l ∨ x ∈ acc.flatMap (fun p => p.2) →
    x ∈ (l.foldl (fun acc skill =>
      let cat := skillCategoryOf skill
      if acc.any (fun p => p.1 = cat) then
        acc.map (fun p => if p.1 = cat then (p.1, p.2 ++ [skill]) else p)
      else acc ++ [(cat, [skill])]) acc).flatMap (fun p => p.2) := by
  induction l with
  | nil =>
      intro acc x hx
      rcases hx with hx | hx
      · exact absurd hx (List.not_mem_nil x)
      · exact hx
  | cons a rest ih =>
      intro acc x hx
      simp only [List.foldl_cons]
      apply ih
      rcases hx with hx | hx
      · rcases List.mem_cons.mp hx with rfl | hx'
        · right
          show x ∈ (if acc.any (fun p => p.1 = skillCategoryOf x) then
              acc.map (fun p => if p.1 = skillCategoryOf x then (p.1, p.2 ++ [x]) else p)
            else acc ++ [(skillCategoryOf x, [x])]).flatMap (fun p => p.2)
          split
          · next h =>
              obtain ⟨b, hb, hbc⟩ := List.any_eq_true.mp h
              have hbc' : b.1 = skillCategoryOf x := of_decide_eq_true hbc
              refine List.mem_flatMap.mpr ⟨(b.1, b.2 ++ [x]), ?_, by simp⟩
              have himg : (fun p => if p.1 = skillCategoryOf x then (p.1, p.2 ++ [x]) else p) b
                  = (b.1, b.2 ++ [x]) := by
                show (if b.1 = skillCategoryOf x then (b.1, b.2 ++ [x]) else b) = (b.1, b.2 ++ [x])
                rw [if_pos hbc']
              exact himg ▸ List.mem_map_of_mem _ hb
          · exact List.mem_flatMap.mpr
              ⟨(skillCategoryOf x, [x]), List.mem_append_right _ (List.mem_singleton.mpr rfl),
               List.mem_singleton.mpr rfl⟩
        · left; exact hx'
      · right
        obtain ⟨b, hb, hxb⟩ := List.mem_flatMap.mp hx
        show x ∈ (if acc.any (fun p => p.1 = skillCategoryOf a) then
            acc.map (fun p => if p.1 = skillCategoryOf a then (p.1, p.2 ++ [a]) else p)
          else acc ++ [(skillCategoryOf a, [a])]).flatMap (fun p => p.2)
        split
        · refine List.mem_flatMap.mpr
            ⟨(fun p => if p.1 = skillCategoryOf a then (p.1, p.2 ++ [a]) else p) b,
             List.mem_map_of_mem _ hb, ?_⟩
          show x ∈ (if b.1 = skillCategoryOf a then (b.1, b.2 ++ [a]) else b).2
          split
          · exact List.mem_append_left _ hxb
          · exact hxb
        · exact List.mem_flatMap.mpr ⟨b, List.mem_append_left _ hb, hxb⟩

/-- Membership in `categorize_skills` buckets. -/
lemma mem_categorize_flat (skills : List String) (x : String) (hx : x ∈ skills) :
    x ∈ (categorize_skills skills).flatMap (fun p => p.2) :=
  catFold_flat skills [] x (Or.inl hx)

/-- NER oracle finding no entities. -/
def oracle8 : NerOracle := fun _ => []

/-- A resume text where known-skill matching (method 2) already finds
`python` three times while the skills section still lists further
skills. -/
def cText8 : String := "python python python\nSkills:\nteamwork, communication skills\n\nmore"

/-- C8 counterexample: on `cText8` method 2 yields `python` (not a
skills-section entry), yet the skills-section method still runs and its
entries `teamwork` and `communication skills` appear in the final
output alongside `python` — the methods are not gated tiers. -/
theorem C8_tiers_all_run :
    extract_skills_section cText8 = ["teamwork", "communication skills"]
    ∧ addKnownSkills (pyLower cText8) (skillsFromEnts (oracle8 (pyLower cText8)))
        = (["python"], [("python", 3)])
    ∧ (extract_skills (some oracle8) cText8 (1/2)).skills
        = ["python", "teamwork", "communication skills"] := by
  refine ⟨by decide, by decide, ?_⟩
  have hall : addSectionSkills cText8
      (addKnownSkills (pyLower cText8) (skillsFromEnts (oracle8 (pyLower cText8))))
      = (["python", "teamwork", "communication skills"],
         [("python", 3), ("teamwork", 1), ("communication skills", 1)]) := by decide
  have hm1 : mentionsGet [("python", 3), ("teamwork", 1), ("communication skills", 1)]
      "python" = 3 := by decide
  have hm2 : mentionsGet [("python", 3), ("teamwork", 1), ("communication skills", 1)]
      "teamwork" = 1 := by decide
  have hm3 : mentionsGet [("python", 3), ("teamwork", 1), ("communication skills", 1)]
      "communication skills" = 1 := by decide
  have hs1 : is_in_skills_section "python" cText8 = false := by decide
  have hs2 : is_in_skills_section "teamwork" cText8 = true := by decide
  have hs3 : is_in_skills_section "communication skills" cText8 = true := by decide
  have hk1 : skill_categories.any (fun p => p.2.contains (pyLower "python")) = true := by decide
  have hk2 : skill_categories.any (fun p => p.2.contains (pyLower "teamwork")) = false := by
    decide
  have hk3 : skill_categories.any (fun p => p.2.contains (pyLower "communication skills"))
      = false := by decide
  have hconf : calculate_confidence_scores
      ["python", "teamwork", "communication skills"]
      [("python", 3), ("teamwork", 1), ("communication skills", 1)] cText8
      = [("python", 7/10), ("teamwork", 1/2), ("communication skills", 1/2)] := by
    simp only [calculate_confidence_scores, List.map, hm1, hm2, hm3, hs1, hs2, hs3,
      hk1, hk2, hk3, if_true, if_false]
    norm_num
  simp only [extract_skills, hall, hconf]
  norm_num [List.filter]

/-- C8 (amended): the three extraction methods of `extract_skills` are
not fallback tiers — they all run unconditionally and their results are
unioned.  In particular the skills-section method always contributes:
for every oracle, text and confidence threshold, the normalized form of
every skills-section entry appears in the output's categorized skill
buckets, regardless of what the earlier methods produced. -/
theorem C8_section_skills_always_included (oracle : NerOracle) (text : String) (minc : ℚ)
    (s n : String) (hs : s ∈ extract_skills_section text)
    (hn : normalize_skill s = some n) :
    n ∈ (extract_skills (some oracle) text minc).categorized_skills.flatMap
      (fun p => p.2) := by
  have h1 : n ∈ (addSectionSkills text
      (addKnownSkills (pyLower text) (skillsFromEnts (oracle (pyLower text))))).1 :=
    addSectionSkills_mem text s n hs hn _
  simp only [extract_skills]
  exact mem_categorize_flat _ n h1

/-- C8 witness: `teamwork` is a skills-section entry of `cText8`,
normalizes to itself, and appears in the categorized output even though
method 2 already found `python`. -/
theorem C8_section_skills_always_included_witness :
    "teamwork" ∈ extract_skills_section cText8
    ∧ normalize_skill "teamwork" = some "teamwork"
    ∧ "teamwork" ∈ (extract_skills (some oracle8) cText8 (1/2)).categorized_skills.flatMap
        (fun p => p.2) :=
  ⟨by decide, by decide,
   C8_section_skills_always_included oracle8 cText8 (1/2) "teamwork" "teamwork"
     (by decide) (by decide)⟩

/-! ### C5: internships and `extract_experience`'s total -/

/-- A resume whose only position is an internship (no professional-role
indicator), with an explicit date range. -/
def cText5 : String := "Experience:\nMarketing Intern at ABC Corp, Jan 2020 - Dec 2020\n"

/-- The single experience line of `cText5`. -/
def line5 : String := "Marketing Intern at ABC Corp, Jan 2020 - Dec 2020"

/-- A `dateutil.parser.parse` oracle for the two dates of `cText5`
(day numbers; only the 335-day difference matters). -/
def dp5 : String → Option Int := fun s =>
  if s = "Jan 2020" then some 0 else if s = "Dec 2020" then some 335 else none

/-- Reference `datetime.now()` for the C5 run (unused: the range has an
explicit end). -/
def now5 : Int := 20000

/-- The parsed entry of `line5`. -/
def entry5 : ExpEntry :=
  { job_title := none, company := some "Marketing Intern at ABC Corp",
    start_date := some 0, end_date := some 335 }

/-- `entry5` after enrichment: 335 days / 30.44 truncates to 11 months. -/
def enr5 : EnrExp :=
  { toExpEntry := entry5, duration_months := some 11, duration_years := some (9/10) }

/-- C5 counterexample: on `cText5` every parsed position is classified
as an internship (in the spec's own sense, `_is_internship_position`),
yet `extract_experience` totals it anyway: `total_experience_years`
is 0.9, not 0.  `extract_experience` has no internship filtering. -/
theorem C5_internships_counted :
    (extract_experience dp5 now5 cText5).experiences.all
        (fun e => is_internship_position e) = true
    ∧ (extract_experience dp5 now5 cText5).experiences.length = 1
    ∧ (extract_experience dp5 now5 cText5).total_experience_years = 9/10
    ∧ (9/10 : ℚ) ≠ 0 := by
  have hsec : find_experience_section cText5 = some line5.data := by decide
  have henr : enrich_experience now5 entry5 = enr5 := by
    simp only [enrich_experience, entry5, enr5]
    norm_num [pyTrunc, pyRound, roundHalfEven]
    decide
  have h2 : parse_experiences dp5 now5 ⟨line5.data⟩
      = Except.ok (List.map (enrich_experience now5) [entry5]) := by rfl
  have hpe : parse_experiences dp5 now5 ⟨line5.data⟩ = .ok [enr5] := by
    rw [h2]
    simp only [List.map, henr]
  have hsum : (List.map (fun e => e.duration_months.getD 0) [enr5]).sum = (11 : ℤ) := by
    decide
  have hres : extract_experience dp5 now5 cText5 =
      { experiences := [enr5], total_experience_months := 11,
        total_experience_years := 9/10, current_position := none,
        experience_count := some 1 } := by
    simp only [extract_experience, hsec, hpe]
    simp only [ExperienceResult.mk.injEq]
    and_intros <;>
      first
        | trivial
        | (rw [hsum]; norm_num [pyRound, roundHalfEven])
  refine ⟨?_, ?_, ?_, by norm_num⟩
  · rw [hres]; decide
  · rw [hres]; rfl
  · rw [hres]

/-- C5 (amended): `extract_experience` performs no internship/academic
filtering — its `total_experience_months` is the plain sum of
`duration_months` over **all** parsed experiences, and
`total_experience_years` is that total divided by 12 and rounded to one
digit (with the empty result when no section is found or parsing
raises). -/
theorem C5_total_sums_all_positions (dp : String → Option Int) (now : Int) (text : String) :
    (extract_experience dp now text).total_experience_months =
      ((extract_experience dp now text).experiences.map
        (fun e => e.duration_months.getD 0)).sum
    ∧ (extract_experience dp now text).total_experience_years =
        pyRound 1 (((extract_experience dp now text).total_experience_months : ℚ) / 12) := by
  simp only [extract_experience]
  cases h : find_experience_section text with
  | none =>
      constructor
      · rfl
      · show (0 : ℚ) = pyRound 1 (((0 : ℤ) : ℚ) / 12)
        norm_num [pyRound, roundHalfEven]
  | some body =>
      cases hp : parse_experiences dp now ⟨body⟩ with
      | error e =>
          simp only [hp]
          constructor
          · rfl
          · show (0 : ℚ) = pyRound 1 (((0 : ℤ) : ℚ) / 12)
            norm_num [pyRound, roundHalfEven]
      | ok exps =>
          simp only [hp]
          exact ⟨trivial, trivial⟩
